/-
Verification development for the WSA terminal (wsa.py / wsa_console.py).

The two Python implementations are shallowly embedded over `PyStr := List Char`
(a faithful model of Python `str` for the ASCII data this program manipulates).
Host-filesystem calls (`os.path.exists`, `os.listdir`, ...) and clock calls
(`datetime.now`) are abstracted as oracle fields of an environment record, so
theorems quantify over every possible host behaviour.  All embedded functions
are total and executable; fallible Python code paths are represented by
explicit result values, mirroring the source's own `try`/`except` structure.
-/
import Mathlib

set_option maxRecDepth 100000

namespace WSA

/-- Model of a Python `str`: a list of characters. -/
abbrev PyStr := List Char

/-- Embed a Lean string literal as a `PyStr`. -/
def lit (s : String) : PyStr := s.data

/-- Python `str.upper` for the ASCII strings this program uses. -/
def pyUpper (s : PyStr) : PyStr := s.map Char.toUpper

/-- Python `str.lower` for the ASCII strings this program uses. -/
def pyLower (s : PyStr) : PyStr := s.map Char.toLower

/-- The whitespace characters recognised by Python `str.strip` / `str.split`. -/
def isPySpace (c : Char) : Bool :=
  c == ' ' || c == '\t' || c == '\n' || c == '\r' || c == '\x0b' || c == '\x0c'

/-- Python `str.strip()` (no argument): trim whitespace at both ends. -/
def pyStrip (s : PyStr) : PyStr :=
  ((s.dropWhile isPySpace).reverse.dropWhile isPySpace).reverse

/-- `pyStartswith p s` models Python `s.startswith(p)`. -/
def pyStartswith : PyStr → PyStr → Bool
  | [], _ => true
  | _ :: _, [] => false
  | p :: ps, c :: cs => p == c && pyStartswith ps cs

/-- `pyEndswith p s` models Python `s.endswith(p)`. -/
def pyEndswith (p s : PyStr) : Bool := pyStartswith p.reverse s.reverse

/-- Auxiliary accumulator-style splitter for `pySplitChar`. -/
def pySplitCharAux (sep : Char) (cur : PyStr) : PyStr → List PyStr
  | [] => [cur.reverse]
  | c :: cs =>
      if c == sep then cur.reverse :: pySplitCharAux sep [] cs
      else pySplitCharAux sep (c :: cur) cs

/-- Python `s.split(sep)` for a one-character separator (keeps empty pieces). -/
def pySplitChar (sep : Char) (s : PyStr) : List PyStr := pySplitCharAux sep [] s

/-- Auxiliary accumulator-style splitter for `pySplitWs`. -/
def pySplitWsAux (cur : PyStr) : PyStr → List PyStr
  | [] => if cur.isEmpty then [] else [cur.reverse]
  | c :: cs =>
      if isPySpace c then
        if cur.isEmpty then pySplitWsAux [] cs
        else cur.reverse :: pySplitWsAux [] cs
      else pySplitWsAux (c :: cur) cs

/-- Python `s.split()` (no argument): split on whitespace runs, drop empties. -/
def pySplitWs (s : PyStr) : List PyStr := pySplitWsAux [] s

/-- Python `sep.join(pieces)` for a one-character separator. -/
def pyJoinChar (sep : Char) : List PyStr → PyStr
  | [] => []
  | [p] => p
  | p :: ps => p ++ sep :: pyJoinChar sep ps

/-- Python `s.replace(a, b)` for one-character patterns. -/
def pyReplaceChar (a b : Char) (s : PyStr) : PyStr :=
  s.map (fun c => if c == a then b else c)

/-- Decimal rendering of a natural number, as used by Python f-strings. -/
def natStr (n : Nat) : PyStr := Nat.toDigits 10 n

/-- Python format spec `{:<w}`: left-justify to width `w` with spaces. -/
def padLeftJust (w : Nat) (s : PyStr) : PyStr :=
  s ++ List.replicate (w - s.length) ' '

/-- Python format spec `{:>w}`: right-justify to width `w` with spaces. -/
def padRightJust (w : Nat) (s : PyStr) : PyStr :=
  List.replicate (w - s.length) ' ' ++ s

/-- Key membership test for the association lists that model Python dicts. -/
def memKey (k : PyStr) (d : List (PyStr × α)) : Bool :=
  (List.lookup k d).isSome

/-- Python `dict.get(k, dflt)` over the association-list dict model. -/
def dictGetD (k : PyStr) (d : List (PyStr × α)) (dflt : α) : α :=
  (List.lookup k d).getD dflt

/-- Lexicographic `≤` on character lists, as Python compares strings. -/
def strLeB : PyStr → PyStr → Bool
  | [], _ => true
  | _ :: _, [] => false
  | a :: as, b :: bs => if a < b then true else if a = b then strLeB as bs else false

/-- The comparison used by `list.sort(key=str.lower)`: compare lowered strings. -/
def ciLe (a b : PyStr) : Bool := strLeB (pyLower a) (pyLower b)

/-- Python `list.sort(key=str.lower)` (stable sort on the lowered key). -/
def pySortCI (l : List PyStr) : List PyStr := l.mergeSort ciLe

/-- Result of an `os.listdir` call: the listing, a `PermissionError`, or
another `OSError` carrying a message. -/
inductive ListdirResult where
  | ok (items : List PyStr)
  | permissionDenied
  | failure (msg : PyStr)
deriving DecidableEq

/-- Generic `os.path.join(a, b)` for a given separator. -/
def osJoin (sep : Char) (a b : PyStr) : PyStr :=
  if pyStartswith [sep] b then b
  else if pyEndswith [sep] a then a ++ b
  else a ++ sep :: b

/-- `os.path.join("C:\\", s)` under Windows path rules. -/
def ntJoinC (s : PyStr) : PyStr :=
  if pyStartswith (lit "\\") s then lit "C:" ++ s else lit "C:\\" ++ s

/-- Strip one leading `/`, as both sources do after removing the `DH0:`
device token. -/
def stripLeadSlash (s : PyStr) : PyStr :=
  if pyStartswith (lit "/") s then s.drop 1 else s

/-- The parent-directory computation of the `..` branches shared by both
implementations: pop the last `/`-segment of the part after `:`, clamp to
the device root, and fall back to `SYS:` when there is no path part. -/
def parentOf (current : PyStr) : PyStr :=
  let parts := pySplitChar ':' current
  if parts.length > 1 && !(parts.getD 1 []).isEmpty then
    let parent_parts := pySplitChar '/' (parts.getD 1 [])
    if parent_parts.length > 1 then
      parts.getD 0 [] ++ ':' :: pyJoinChar '/' parent_parts.dropLast
    else parts.getD 0 [] ++ [':']
  else lit "SYS:"

/-- A virtual file key that is a *direct* child of directory `path`:
`file_path.startswith(path + "/")` and no further `/` in the remainder. -/
def isDirectChild (path file_path : PyStr) : Bool :=
  pyStartswith (path ++ ['/']) file_path
    && !(file_path.drop (path.length + 1)).contains '/'

namespace Console
/-!
Embedding of `wsa_console.py` (`WSAConsoleTerminal`).  `os.path.normpath`
calls are absorbed into the host oracle: the oracle is consulted at the
un-normalised translated path.  Because normalisation is a pure function of
the path, and every theorem below either quantifies over the oracle or fixes
a concrete host, this renaming of the oracle's keys is behaviour-preserving.
-/

/-- One entry of `EmulatorSharedFolder.mounted_shared_folders`. -/
structure SharedInfo where
  hostPath : PyStr
  label : PyStr
  access : PyStr
  emulator : PyStr
  config : PyStr
deriving DecidableEq

/-- Host environment of the console terminal: the WSL / Windows platform
flags, the host-filesystem oracles and the clock-derived date strings. -/
structure Env where
  isWSL : Bool
  isWindows : Bool
  pathExists : PyStr → Bool
  pathIsDir : PyStr → Bool
  pathIsFile : PyStr → Bool
  listdir : PyStr → ListdirResult
  getsize : PyStr → Nat
  nowDay : PyStr
  nowDate : PyStr
  nowDateFull : PyStr
  fileDay : PyStr → PyStr
  fileDate : PyStr → PyStr
  fileDateFull : PyStr → PyStr

/-- Mutable session state of `WSAConsoleTerminal`. -/
structure State where
  current_dir : PyStr
  prompt : PyStr
  directories : List (PyStr × List PyStr)
  files : List (PyStr × PyStr)
  mounted : List (PyStr × SharedInfo)
deriving DecidableEq

/-- The `logical_assignments` dict (appears verbatim in `precmd` and
`_resolve_path`). -/
def logical_assignments : List (PyStr × PyStr) :=
  [(lit "S:", lit "SYS:S"), (lit "L:", lit "SYS:L"),
   (lit "DEVS:", lit "SYS:DEVS"), (lit "FONTS:", lit "SYS:Fonts"),
   (lit "T:", lit "RAM:T")]

/-- The alias-substitution loop of `_resolve_path` (first matching
assignment wins, in dict order). -/
def aliasSubst (path : PyStr) : Option PyStr :=
  match logical_assignments.find? (fun la => pyStartswith la.1 (pyUpper path)) with
  | some la =>
      let remaining_path := path.drop la.1.length
      some (if remaining_path.isEmpty then la.2 else la.2 ++ '/' :: remaining_path)
  | none => none

/-- `WSAConsoleTerminal._resolve_path`. -/
def resolve_path (s : State) (path : PyStr) : PyStr :=
  if path.isEmpty then s.current_dir
  else if path.contains ':' then
    match aliasSubst path with
    | some r => r
    | none => path
  else if pyUpper s.current_dir = lit "DH0:" then lit "DH0:/" ++ path
  else if pyStartswith (lit "DH0:") (pyUpper s.current_dir) then
    s.current_dir ++ '/' :: path
  else if pyEndswith (lit ":") s.current_dir then s.current_dir ++ path
  else s.current_dir ++ '/' :: path

/-- `WSAConsoleTerminal.precmd`: rewrite a bare device / alias token into an
explicit `cd` command before it reaches verb dispatch. -/
def precmd (s : State) (line : PyStr) : PyStr :=
  if !line.isEmpty && pyEndswith (lit ":") (pyUpper line) && line.contains ':' then
    let device := pyUpper line
    match List.lookup device logical_assignments with
    | some target => lit "cd " ++ target
    | none =>
        match s.directories.find? (fun kv => pyUpper kv.1 == device) with
        | some kv => lit "cd " ++ kv.1
        | none => line
  else line

/-- The device token computed at the top of `_list_files` and
`_change_directory`: first `/`-segment, uppercased, a `:` appended when
missing. -/
def deviceOf (path : PyStr) : PyStr :=
  let device0 := if path.contains '/' then (pySplitChar '/' path).headD [] else path
  let device1 := pyUpper device0
  if pyEndswith (lit ":") device1 then device1 else device1 ++ [':']

/-- `os.path.join` against the fixed WSL mount root `/mnt/c`. -/
def posixJoinMntC (s : PyStr) : PyStr :=
  if pyStartswith (lit "/") s then s
  else if s.isEmpty then lit "/mnt/c"
  else lit "/mnt/c/" ++ s

/-- The host path separator `os.sep` of the running platform. -/
def Env.sep (env : Env) : Char := if env.isWindows then '\\' else '/'

/-- Translation of a `DH0:`-rooted path to a host path, as done inline in
the `DH0:` branches of `_list_files` / `_change_directory`: strip the
`DH0:` prefix and a leading `/`, swap separators, and join to the platform
mount root (`/mnt/c` under WSL, `C:\` on Windows). -/
def dh0HostPath (env : Env) (amigaPath : PyStr) : PyStr :=
  let sub0 := amigaPath.drop 4
  let sub := if pyStartswith (lit "/") sub0 then sub0.drop 1 else sub0
  if env.isWSL then posixJoinMntC (pyReplaceChar '\\' '/' sub)
  else ntJoinC (pyReplaceChar '/' '\\' sub)

/-- `WSAConsoleTerminal._change_shared_folder_directory`. -/
def change_shared_folder_directory (env : Env) (s : State) (path device : PyStr)
    (info : SharedInfo) : State × PyStr :=
  if path = device then
    ({ s with current_dir := device, prompt := device ++ lit "> " }, [])
  else
    let sub0 := path.drop device.length
    let sub := if pyStartswith (lit "/") sub0 then sub0.drop 1 else sub0
    let fs_path := osJoin env.sep info.hostPath (pyReplaceChar '/' env.sep sub)
    if !env.pathExists fs_path || !env.pathIsDir fs_path then
      (s, lit "Directory " ++ path ++ lit " not found.")
    else ({ s with current_dir := path, prompt := path ++ lit "> " }, [])

/-- `WSAConsoleTerminal._change_directory`.  Returns the updated state and
the printed result text (empty on success). -/
def change_directory (env : Env) (s : State) (path : PyStr) : State × PyStr :=
  let device := deviceOf path
  match List.lookup device s.mounted with
  | some info => change_shared_folder_directory env s path device info
  | none =>
  if pyUpper path = lit "DH0:" then
    ({ s with current_dir := lit "DH0:", prompt := lit "DH0:> " }, [])
  else if path = lit ".." || pyStartswith (lit "../") path then
    if s.current_dir = lit "SYS:" then (s, lit "Already at root directory.")
    else if pyStartswith (lit "../") path then
      let target_path := path.drop 3
      let parent_dir := parentOf s.current_dir
      if !target_path.isEmpty then
        let new_path :=
          if pyEndswith (lit ":") parent_dir then parent_dir ++ target_path
          else parent_dir ++ '/' :: target_path
        if memKey new_path s.directories then
          ({ s with current_dir := new_path, prompt := new_path ++ lit "> " }, [])
        else (s, lit "Directory " ++ target_path ++ lit " not found.")
      else ({ s with current_dir := parent_dir, prompt := parent_dir ++ lit "> " }, [])
    else
      let new_dir := parentOf s.current_dir
      ({ s with current_dir := new_dir, prompt := new_dir ++ lit "> " }, [])
  else if path.contains ':' then
    if pyStartswith (lit "DH0:") (pyUpper path) then
      if env.isWSL || env.isWindows then
        let fs_path := dh0HostPath env path
        if env.pathExists fs_path && env.pathIsDir fs_path then
          ({ s with current_dir := path, prompt := path ++ lit "> " }, [])
        else (s, lit "Directory " ++ path ++ lit " not found.")
      else (s, lit "Directory " ++ path ++ lit " not found.")
    else if memKey path s.directories then
      ({ s with current_dir := path, prompt := path ++ lit "> " }, [])
    else (s, lit "Directory " ++ path ++ lit " not found.")
  else if pyStartswith (lit "DH0:") (pyUpper s.current_dir) then
    if env.isWSL || env.isWindows then
      let new_path :=
        if pyUpper s.current_dir = lit "DH0:" then lit "DH0:/" ++ path
        else s.current_dir ++ '/' :: path
      let fs_path := dh0HostPath env new_path
      if env.pathExists fs_path && env.pathIsDir fs_path then
        ({ s with current_dir := new_path, prompt := new_path ++ lit "> " }, [])
      else (s, lit "Directory " ++ path ++ lit " not found.")
    else (s, lit "Directory " ++ path ++ lit " not found.")
  else
    let new_path :=
      if s.current_dir = lit "SYS:" then lit "SYS:" ++ path
      else s.current_dir ++ '/' :: path
    if memKey new_path s.directories then
      ({ s with current_dir := new_path, prompt := new_path ++ lit "> " }, [])
    else if (dictGetD s.current_dir s.directories []).contains path
            && memKey s.current_dir s.directories then
      ({ s with current_dir := new_path, prompt := new_path ++ lit "> " }, [])
    else (s, lit "Directory " ++ path ++ lit " not found.")

/-- The `DIR` header line `Directory "<path>" on <day> <date>`. -/
def headerLine (path day date : PyStr) : PyStr :=
  lit "Directory \"" ++ path ++ lit "\" on " ++ day ++ ' ' :: date

/-- A printed directory entry row of the console lister. -/
def dirLine (name dateStr : PyStr) : PyStr :=
  ' ' :: padLeftJust 22 name ++ ' ' :: lit "(dir)    ----rwed     " ++ dateStr

/-- A printed plain-file entry row of the console lister. -/
def fileLine (name : PyStr) (size : Nat) (dateStr : PyStr) : PyStr :=
  ' ' :: padLeftJust 22 name ++ ' ' :: padRightJust 7 (natStr size)
    ++ lit "  ----rwed     " ++ dateStr

/-- A printed executable-file entry row (`C:` device listing). -/
def execFileLine (name : PyStr) (size : Nat) (dateStr : PyStr) : PyStr :=
  ' ' :: padLeftJust 22 name ++ ' ' :: padRightJust 7 (natStr size)
    ++ lit "  ---xrwed     " ++ dateStr

/-- The `DIR` footer `<total> files - <dirs> directories - <bytes> bytes used`. -/
def footerLine (totalFiles dirCount totalBytes : Nat) : PyStr :=
  natStr totalFiles ++ lit " files - " ++ natStr dirCount
    ++ lit " directories - " ++ natStr totalBytes ++ lit " bytes used"

/-- The host-backed listing block of `_list_files` (`DH0:` with a live
filesystem): partition `os.listdir` output, sort each side with
`key=str.lower`, directories first, then the aggregate footer. -/
def hostListing (env : Env) (path fs_path : PyStr) : List PyStr :=
  let header := headerLine path (env.fileDay fs_path) (env.fileDate fs_path)
  match env.listdir fs_path with
  | .permissionDenied => [header, lit "Access denied to this directory."]
  | .failure msg => [header, lit "Error reading directory: " ++ msg]
  | .ok items =>
      let part := items.partition (fun item => env.pathIsDir (osJoin env.sep fs_path item))
      let dirs := pySortCI part.1
      let files := pySortCI part.2
      let dirLines := dirs.map (fun d => dirLine d (env.fileDateFull (osJoin env.sep fs_path d)))
      let fileLines := files.map (fun f =>
        fileLine f (env.getsize (osJoin env.sep fs_path f))
          (env.fileDateFull (osJoin env.sep fs_path f)))
      let total_bytes :=
        ((files.filter (fun f => env.pathIsFile (osJoin env.sep fs_path f))).map
          (fun f => env.getsize (osJoin env.sep fs_path f))).sum
      header :: dirLines ++ fileLines
        ++ [footerLine (dirs.length + files.length) dirs.length total_bytes]

/-- The placeholder `DH0:` listing used when no host filesystem is
available (lines 2278-2304 of `wsa_console.py`). -/
def dh0Placeholder (env : Env) (s : State) (path : PyStr) : List PyStr :=
  let header := headerLine path env.nowDay env.nowDate
  let dirs := dictGetD path s.directories []
  let dirLines := dirs.map (fun d => dirLine d env.nowDateFull)
  let ff := s.files.foldl
    (fun acc kv =>
      if isDirectChild path kv.1 then
        (acc.1 ++ [fileLine (kv.1.drop (path.length + 1)) kv.2.length env.nowDateFull],
         acc.2 + 1)
      else acc)
    (([] : List PyStr), 0)
  let total_bytes :=
    ((s.files.filter (fun kv => isDirectChild path kv.1)).map (fun kv => kv.2.length)).sum
  header :: dirLines ++ ff.1 ++ [footerLine (dirs.length + ff.2) dirs.length total_bytes]

/-- The `C:` device listing: registered command names shown as executable
pseudo-files (dict content length, or the 1024-byte default), then any
remaining direct-child files of `C:`. -/
def listC (env : Env) (s : State) : List PyStr :=
  let header := headerLine (lit "C:") env.nowDay env.nowDate
  let command_names := dictGetD (lit "C:") s.directories []
  let cmdFold := command_names.foldl
    (fun acc cmd_name =>
      let file_size := match List.lookup (lit "C:" ++ cmd_name) s.files with
        | some content => content.length
        | none => 1024
      (acc.1 ++ [execFileLine cmd_name file_size env.nowDateFull],
       acc.2.1 + file_size, acc.2.2 + 1))
    (([] : List PyStr), 0, 0)
  let extraFold := s.files.foldl
    (fun acc kv =>
      if pyStartswith (lit "C:") kv.1 && kv.1 ≠ lit "C:" then
        let file_name := kv.1.drop 2
        if !file_name.contains '/' && !command_names.contains file_name then
          (acc.1 ++ [fileLine file_name kv.2.length env.nowDateFull],
           acc.2.1 + kv.2.length, acc.2.2 + 1)
        else acc
      else acc)
    cmdFold
  header :: extraFold.1 ++ [footerLine extraFold.2.2 0 extraFold.2.1]

/-- The `SYS:C` special case of `_list_files`: the `C:` contents are shown
under the `SYS:C` header (with the plain-file flag string). -/
def listSysC (env : Env) (s : State) (path : PyStr) : List PyStr :=
  let header := headerLine path env.nowDay env.nowDate
  let command_names := dictGetD (lit "C:") s.directories []
  let cmdFold := command_names.foldl
    (fun acc cmd_name =>
      let file_size := match List.lookup (lit "C:" ++ cmd_name) s.files with
        | some content => content.length
        | none => 1024
      (acc.1 ++ [fileLine cmd_name file_size env.nowDateFull],
       acc.2.1 + file_size, acc.2.2 + 1))
    (([] : List PyStr), 0, 0)
  let extraFold := s.files.foldl
    (fun acc kv =>
      if pyStartswith (lit "C:") kv.1 then
        let file_name := kv.1.drop 2
        if !file_name.contains '/' && !file_name.isEmpty
            && !command_names.contains file_name then
          (acc.1 ++ [fileLine file_name kv.2.length env.nowDateFull],
           acc.2.1 + kv.2.length, acc.2.2 + 1)
        else acc
      else acc)
    cmdFold
  header :: extraFold.1 ++ [footerLine extraFold.2.2 0 extraFold.2.1]

/-- The direct-child file loop shared by the virtual listing branches of
`_list_files`: one pass over the file dict accumulating the printed rows,
the file count and the byte total. -/
def virtFileFold (env : Env) (path : PyStr) (files : List (PyStr × PyStr)) :
    List PyStr × Nat × Nat :=
  files.foldl
    (fun acc kv =>
      if isDirectChild path kv.1 then
        let file_size := kv.2.length
        (acc.1 ++ [fileLine (kv.1.drop (path.length + 1)) file_size env.nowDateFull],
         acc.2.1 + 1, acc.2.2 + file_size)
      else acc)
    (([] : List PyStr), 0, 0)

/-- The other `SYS:` virtual-subdirectory special case of `_list_files`:
only direct-child files, no subdirectories. -/
def listSysOther (env : Env) (s : State) (path : PyStr) : List PyStr :=
  let header := headerLine path env.nowDay env.nowDate
  let ff := virtFileFold env path s.files
  header :: ff.1 ++ [footerLine ff.2.1 0 ff.2.2]

/-- `_list_shared_folder_files`: listing of a mounted emulator shared
folder (host-backed, sorted like the `DH0:` host listing). -/
def list_shared_folder_files (env : Env) (path device : PyStr)
    (info : SharedInfo) : List PyStr :=
  let fs_path :=
    if path = device then info.hostPath
    else
      let sub0 := path.drop device.length
      let sub := if pyStartswith (lit "/") sub0 then sub0.drop 1 else sub0
      osJoin env.sep info.hostPath (pyReplaceChar '/' env.sep sub)
  if !env.pathExists fs_path || !env.pathIsDir fs_path then
    [lit "Directory " ++ path ++ lit " not found."]
  else
    let header1 := headerLine path (env.fileDay fs_path) (env.fileDate fs_path)
    let header2 := '(' :: pyUpper info.emulator ++ lit " Shared Folder: \""
      ++ info.label ++ lit "\" from " ++ info.config ++ [')']
    match env.listdir fs_path with
    | .permissionDenied => [header1, header2, lit "Access denied to this directory."]
    | .failure msg => [header1, header2, lit "Error reading directory: " ++ msg]
    | .ok items =>
        let part := items.partition (fun item => env.pathIsDir (osJoin env.sep fs_path item))
        let dirs := pySortCI part.1
        let files := pySortCI part.2
        let dirLines := dirs.map (fun d => dirLine d (env.fileDateFull (osJoin env.sep fs_path d)))
        let ff := files.foldl
          (fun acc f =>
            let size := env.getsize (osJoin env.sep fs_path f)
            (acc.1 ++ [fileLine f size (env.fileDateFull (osJoin env.sep fs_path f))],
             acc.2 + size))
          (([] : List PyStr), 0)
        let access_note := if info.access = lit "ro" then lit " (Read-Only)" else []
        header1 :: header2 :: dirLines ++ ff.1
          ++ [footerLine (dirs.length + files.length) dirs.length ff.2 ++ access_note]

/-- The general virtual-directory listing branch of `_list_files`
(lines 2421-2446): stored subdirectory order, then direct-child files in
dict order, then the aggregate footer. -/
def generalVirtualListing (env : Env) (s : State) (path : PyStr) : List PyStr :=
  let header := headerLine path env.nowDay env.nowDate
  let dirs := dictGetD path s.directories []
  let dirLines := dirs.map (fun d => dirLine d env.nowDateFull)
  let ff := virtFileFold env path s.files
  header :: dirLines ++ ff.1
    ++ [footerLine (dirs.length + ff.2.1) dirs.length ff.2.2]

/-- Body of `WSAConsoleTerminal._list_files` once the target path is fixed
(the argument, when given, has already been passed through `_resolve_path`
by the caller and then by `_list_files` itself).  Returns the printed
lines. -/
def list_files_at (env : Env) (s : State) (path : PyStr) : List PyStr :=
  let device := deviceOf path
  match List.lookup device s.mounted with
  | some info => list_shared_folder_files env path device info
  | none =>
  if pyStartswith (lit "DH0:") (pyUpper path) then
    if env.isWSL || env.isWindows then
      let fs_path :=
        if pyUpper path = lit "DH0:" then (if env.isWSL then lit "/mnt/c" else lit "C:\\")
        else dh0HostPath env path
      if env.pathExists fs_path && env.pathIsDir fs_path then hostListing env path fs_path
      else [lit "Directory " ++ path ++ lit " not found."]
    else dh0Placeholder env s path
  else if path = lit "C:" then listC env s
  else if !memKey path s.directories then
    if path.contains ':' then
      let device_part := path.takeWhile (fun c => c ≠ ':')
      let sub_part := path.drop (device_part.length + 1)
      if device_part ++ [':'] = lit "SYS:"
          && (dictGetD (lit "SYS:") s.directories []).contains sub_part then
        if sub_part = lit "C" then listSysC env s path
        else listSysOther env s path
      else [lit "Directory " ++ path ++ lit " not found."]
    else [lit "Directory " ++ path ++ lit " not found."]
  else generalVirtualListing env s path

/-- `WSAConsoleTerminal._list_files` with its optional path argument: a
given argument is resolved against the current directory first. -/
def list_files (env : Env) (s : State) (path? : Option PyStr) : List PyStr :=
  match path? with
  | none => list_files_at env s s.current_dir
  | some p => list_files_at env s (resolve_path s p)

/-- The startup virtual directory table of `WSAConsoleTerminal.__init__`
(non-Windows host, so `DH0:` carries the placeholder content). -/
def initDirectories : List (PyStr × List PyStr) :=
  [(lit "SYS:", [lit "Prefs", lit "Tools", lit "L", lit "S", lit "C",
                 lit "DEVS", lit "Fonts", lit "WBStartup"]),
   (lit "SYS:S", []), (lit "SYS:L", []), (lit "SYS:DEVS", []), (lit "SYS:Fonts", []),
   (lit "SYS:Prefs", [lit "Env-Archive", lit "Env"]),
   (lit "SYS:Prefs/Env-Archive", []), (lit "SYS:Prefs/Env", []),
   (lit "RAM:", [lit "T"]), (lit "RAM:T", []),
   (lit "C:", [lit "Info", lit "Avail", lit "Status", lit "Mount", lit "Ed",
               lit "Dir", lit "Cd", lit "Pattern", lit "Date", lit "Echo",
               lit "Help", lit "Amiga", lit "Ping", lit "WinUAE", lit "Say",
               lit "Guru"]),
   (lit "DH0:", [lit "Windows", lit "Program Files", lit "Users",
                 lit "Documents and Settings"])]

/-- The stored `SYS:S/Startup-Sequence` script content. -/
def startupSequenceText : PyStr :=
  lit "; AmigaOS-style startup sequence\n; This script runs when the WSA Terminal starts\n\n; Mount additional volumes\n; mount RAM: FROM RAM SIZE=1024\n\n; Set environment variables\n; setenv PATH C: SYS:S\n\n; Run system tools\n; execute SYS:Tools/Shell-Startup\n"

/-- The startup virtual file table of `WSAConsoleTerminal.__init__`
(non-Windows host, so the `DH0:` placeholder files are appended). -/
def initFiles : List (PyStr × PyStr) :=
  [(lit "SYS:Prefs/Env-Archive/PATH", lit "C: SYS:S SYS:C"),
   (lit "SYS:Prefs/Env-Archive/SHELL", lit "WSA Terminal"),
   (lit "SYS:Prefs/Env/PATH", lit "C: SYS:S SYS:C"),
   (lit "SYS:Prefs/Env/SHELL", lit "WSA Terminal"),
   (lit "SYS:Tools/Shell-Startup", lit "Shell startup script"),
   (lit "SYS:S/Startup-Sequence", startupSequenceText),
   (lit "RAM:T/Temp-File", lit "Temporary file"),
   (lit "C:Info", lit "System information utility"),
   (lit "C:Avail", lit "List available commands"),
   (lit "C:Status", lit "Show system status"),
   (lit "C:Mount", lit "Mount volumes"),
   (lit "C:Ed", lit "Text editor"),
   (lit "C:Dir", lit "Directory listing"),
   (lit "C:Cd", lit "Change directory"),
   (lit "C:Pattern", lit "Pattern matching utility"),
   (lit "C:Date", lit "Show date and time"),
   (lit "C:Echo", lit "Echo text to terminal"),
   (lit "C:Help", lit "Display help information"),
   (lit "C:Amiga", lit "Amiga easter egg command"),
   (lit "C:Ping", lit "Network ping utility"),
   (lit "C:WinUAE", lit "Launch WinUAE Amiga emulator"),
   (lit "C:Say", lit "Text-to-speech synthesis"),
   (lit "C:Guru", lit "Guru Meditation error demo"),
   (lit "DH0:/Windows/System32/kernel32.dll", lit "Windows kernel library"),
   (lit "DH0:/Windows/explorer.exe", lit "Windows Explorer"),
   (lit "DH0:/Program Files/", lit "Program Files directory"),
   (lit "DH0:/Users/", lit "Users directory")]

/-- Fresh console session state (no emulator shared folders mounted). -/
def initState : State :=
  { current_dir := lit "SYS:", prompt := lit "SYS:> ",
    directories := initDirectories, files := initFiles, mounted := [] }

/-- The fresh console state navigated to the `RAM:` device root. -/
def ramRootState : State :=
  { initState with current_dir := lit "RAM:", prompt := lit "RAM:> " }

/-- A host environment with no reachable filesystem and a fixed clock,
used to evaluate the model on concrete inputs. -/
def noHostEnv : Env :=
  { isWSL := false, isWindows := false,
    pathExists := fun _ => false, pathIsDir := fun _ => false,
    pathIsFile := fun _ => false, listdir := fun _ => .ok [],
    getsize := fun _ => 0,
    nowDay := lit "Monday", nowDate := lit "01-Jan-85",
    nowDateFull := lit "01-Jan-85 12:00:00",
    fileDay := fun _ => lit "Monday", fileDate := fun _ => lit "01-Jan-85",
    fileDateFull := fun _ => lit "01-Jan-85 12:00:00" }

end Console

namespace Web
/-!
Embedding of `wsa.py` (`AmigaTerminal`), the websocket-backed terminal.
Its `DH0:` host access is Windows-only, guarded by a platform flag; the
host filesystem itself is an oracle of the environment.
-/

/-- Host environment of the web terminal: the Windows platform flag, the
host-filesystem oracles, the clock text, and the platform-derived system
information text (the body of `info_command`, which queries `platform` and
`psutil`). -/
structure Env where
  win : Bool
  pathExists : PyStr → Bool
  pathIsDir : PyStr → Bool
  listdir : PyStr → ListdirResult
  getsize : PyStr → Nat
  now : PyStr
  infoText : PyStr

/-- Mutable session state of `AmigaTerminal`. -/
structure State where
  current_dir : PyStr
  prompt : PyStr
  directories : List (PyStr × List PyStr)
  files : List (PyStr × PyStr)
  command_history : List PyStr
deriving DecidableEq

/-- Result of `execute_command`: text output, or the screen-clear action
dict. -/
inductive CmdResult where
  | text (out : PyStr)
  | clear
deriving DecidableEq

/-- The trailing-separator retry of the `DH0:` branches: when the exact
translated path does not exist (and does not already end in a separator),
and the path with `\` appended does exist, use the latter. -/
def retrySep (env : Env) (fs : PyStr) : PyStr :=
  if !env.pathExists fs then
    if !pyEndswith (lit "\\") fs && !pyEndswith (lit "/") fs
        && env.pathExists (fs ++ ['\\']) then fs ++ ['\\']
    else fs
  else fs

/-- Translation of a `DH0:`-prefixed path to the Windows host path (no
retry), as done inline by `wsa.py`: strip `DH0:` and a leading `/`, swap
`/` for `\`, join onto `C:\`. -/
def dh0Translate (path : PyStr) : PyStr :=
  ntJoinC (pyReplaceChar '/' '\\' (stripLeadSlash (path.drop 4)))

/-- The `Directory <path>` header plus column captions of `list_files`. -/
def webHeader (path : PyStr) : PyStr :=
  lit "Directory " ++ path
    ++ lit "\n\nName              Size  Protection  Date\n----              ----  ----------  ----\n"

/-- One directory row of the web lister. -/
def webDirRow (name : PyStr) : PyStr :=
  padLeftJust 18 (name ++ ['/']) ++ lit "DIR   drwx      01-Jan-85\n"

/-- One file row of the web lister. -/
def webFileRow (name : PyStr) (size : Nat) : PyStr :=
  padLeftJust 18 name ++ padRightJust 5 (natStr size) ++ lit "  rwed      01-Jan-85\n"

/-- The web lister footer `\n<d> DIR(s), <f> FILE(s)\n`. -/
def webFooter (dirCount fileCount : Nat) : PyStr :=
  '\n' :: natStr dirCount ++ lit " DIR(s), " ++ natStr fileCount ++ lit " FILE(s)\n"

/-- The host-backed `DH0:` listing block of `wsa.py`'s `list_files`:
partition, sort both sides with `key=str.lower`, directories first.  On a
`PermissionError` or other `OSError` from `os.listdir` the function
returns only the error text. -/
def hostListing (env : Env) (path fs_path : PyStr) : PyStr :=
  match env.listdir fs_path with
  | .permissionDenied => lit "Access denied to this directory.\n"
  | .failure msg => lit "Error reading directory: " ++ msg ++ lit "\n"
  | .ok items =>
      let part := items.partition (fun item => env.pathIsDir (osJoin '\\' fs_path item))
      let dirs := pySortCI part.1
      let files := pySortCI part.2
      webHeader path
        ++ (dirs.map webDirRow).flatten
        ++ (files.map (fun f => webFileRow f (env.getsize (osJoin '\\' fs_path f)))).flatten
        ++ webFooter dirs.length files.length

/-- The virtual listing body of `wsa.py`'s `list_files` (used both as the
`DH0:` placeholder fallback and for ordinary virtual directories): stored
subdirectory order, then direct-child files in dict order. -/
def virtualListing (s : State) (path : PyStr) : PyStr :=
  let dirs := dictGetD path s.directories []
  let ff := s.files.foldl
    (fun acc kv =>
      if isDirectChild path kv.1 then
        (acc.1 ++ webFileRow (kv.1.drop (path.length + 1)) kv.2.length, acc.2 + 1)
      else acc)
    (([] : PyStr), 0)
  webHeader path ++ (dirs.map webDirRow).flatten ++ ff.1 ++ webFooter dirs.length ff.2

/-- `AmigaTerminal.list_files`. -/
def list_files (env : Env) (s : State) (path? : Option PyStr) : PyStr :=
  let path := path?.getD s.current_dir
  if pyStartswith (lit "DH0:") path then
    if env.win then
      let fs0 := if path = lit "DH0:" then lit "C:\\" else dh0Translate path
      let fs := retrySep env fs0
      if env.pathExists fs && env.pathIsDir fs then hostListing env path fs
      else lit "Directory " ++ path ++ lit " not found.\n"
    else virtualListing s path
  else if !memKey path s.directories then
    lit "Directory " ++ path ++ lit " not found.\n"
  else virtualListing s path

/-- `AmigaTerminal.change_directory`. -/
def change_directory (env : Env) (s : State) (path : PyStr) : State × PyStr :=
  if pyUpper path = lit "DH0:" then
    ({ s with current_dir := lit "DH0:", prompt := lit "DH0:> " }, [])
  else if path.isEmpty then (s, lit "Usage: CD <directory>\n")
  else if path = lit ".." then
    if s.current_dir = lit "SYS:" then (s, lit "Already at root directory.\n")
    else
      let nd := parentOf s.current_dir
      ({ s with current_dir := nd, prompt := nd ++ lit "> " }, [])
  else if path.contains ':' then
    if pyStartswith (lit "DH0:") (pyUpper path) && env.win then
      let fs := retrySep env (dh0Translate path)
      if env.pathExists fs && env.pathIsDir fs then
        ({ s with current_dir := path, prompt := path ++ lit "> " }, [])
      else if !pyEndswith (lit "/") path then
        let path_alt := path ++ ['/']
        let fs_alt := dh0Translate path_alt
        if env.pathExists fs_alt && env.pathIsDir fs_alt then
          ({ s with current_dir := path_alt, prompt := path_alt ++ lit "> " }, [])
        else (s, lit "Directory " ++ path ++ lit " not found.\n")
      else (s, lit "Directory " ++ path ++ lit " not found.\n")
    else if memKey path s.directories then
      ({ s with current_dir := path, prompt := path ++ lit "> " }, [])
    else (s, lit "Directory " ++ path ++ lit " not found.\n")
  else if pyStartswith (lit "DH0:") s.current_dir && env.win then
    let new_path :=
      if s.current_dir = lit "DH0:" then lit "DH0:" ++ path
      else s.current_dir ++ '/' :: path
    let fs := retrySep env (dh0Translate new_path)
    if env.pathExists fs && env.pathIsDir fs then
      ({ s with current_dir := new_path, prompt := new_path ++ lit "> " }, [])
    else if !pyEndswith (lit "/") new_path then
      let new_path_alt := new_path ++ ['/']
      let fs_alt := dh0Translate new_path_alt
      if env.pathExists fs_alt && env.pathIsDir fs_alt then
        ({ s with current_dir := new_path_alt, prompt := new_path_alt ++ lit "> " }, [])
      else (s, lit "Directory " ++ path ++ lit " not found.\n")
    else (s, lit "Directory " ++ path ++ lit " not found.\n")
  else
    let new_path :=
      if s.current_dir = lit "SYS:" then lit "SYS:" ++ path
      else s.current_dir ++ '/' :: path
    if memKey new_path s.directories then
      ({ s with current_dir := new_path, prompt := new_path ++ lit "> " }, [])
    else if memKey s.current_dir s.directories
        && (dictGetD s.current_dir s.directories []).contains path then
      ({ s with current_dir := new_path, prompt := new_path ++ lit "> " }, [])
    else (s, lit "Directory " ++ path ++ lit " not found.\n")

/-- `AmigaTerminal.info_command`.  The whole text is platform-derived
(`platform.*`, `psutil`) and therefore abstracted as environment data. -/
def info_command (env : Env) : PyStr := env.infoText

/-- `AmigaTerminal.avail_command`. -/
def avail_command : PyStr :=
  lit "Available commands:\n"
    ++ (([lit "info", lit "avail", lit "status", lit "mount", lit "ed", lit "dir",
          lit "cd", lit "pattern", lit "date", lit "echo", lit "help", lit "amiga",
          lit "ping", lit "cls", lit "clear", lit "execute"].mergeSort strLeB).map
        (fun c => lit "  " ++ c ++ lit "\n")).flatten

/-- `AmigaTerminal.status_command`. -/
def status_command : PyStr :=
  lit "System Status:\n  CPU: Motorola 68020 @ 25MHz\n  Memory: 8MB Chip + 4MB Fast\n  Task: Shell Process\n  Priority: 0\n  Stack: 8000 bytes\n  Processors: 1\n  Tasks: 12 running\n\n"

/-- `AmigaTerminal.mount_command`: one line per device table entry. -/
def mount_command (s : State) : PyStr :=
  lit "Mounted volumes:\n"
    ++ (s.directories.map (fun kv =>
        if kv.1 = lit "DH0:" then lit "  DH0: (Windows C: Drive)\n"
        else lit "  " ++ kv.1 ++ lit "\n")).flatten

/-- `AmigaTerminal.help_command`. -/
def help_command : PyStr :=
  lit "Available commands:\n  INFO     - Display system information\n  AVAIL    - List available commands\n  STATUS   - Show system status\n  MOUNT    - Show mounted volumes\n  ED       - Text editor (not implemented)\n  DIR      - List directory contents (Amiga format with Name, Size, Protection, Date)\n  CD       - Change directory\n  PATTERN  - Pattern matching utility\n  DATE     - Show current date and time\n  ECHO     - Echo text to terminal\n  HELP     - Display this help\n  AMIGA    - Amiga easter egg\n  PING     - Network ping utility\n  CLS      - Clear screen\n\nAmiga Features:\n  Type a device name (e.g., 'dh0:') to automatically CD to that directory\n  Startup sequence execution at terminal startup (SYS:S/Startup-Sequence)\n"

/-- `AmigaTerminal.amiga_command` (the easter-egg ASCII art). -/
def amiga_command : PyStr :=
  lit "                    /\\\n                   /  \\\n                  /    \\\n                 /      \\\n                /        \\\n               /__________\\\n              /            \\\n             /              \\\n            /                \\\n           /                  \\\n          /                    \\\n         /                      \\\n        /                        \\\n       /                          \\\n      /                            \\\n     /                              \\\n    /                                \\\n   /                                  \\\n  /                                    \\\n /______________________________________\\\n\nWelcome to the WSA Terminal - Windows Subsystem for Amiga!\nThis is an emulation of the classic AmigaOS terminal experience.\n\n"

/-- `AmigaTerminal.ping_command`. -/
def ping_command (args : List PyStr) : PyStr :=
  match args with
  | [] => lit "Usage: PING <host>\n"
  | host :: _ =>
      lit "Pinging " ++ host ++ lit "... (simulated)\nReply from " ++ host
        ++ lit ": bytes=32 time<1ms TTL=64\n"

/-- The usage text of `pattern_command`. -/
def patternUsage : PyStr :=
  lit "Usage: PATTERN <pattern>\nExamples:\n  PATTERN #?        (matches single character files)\n  PATTERN ~pattern  (matches files starting with pattern)\n  PATTERN *         (matches all files)\n"

/-- `AmigaTerminal.pattern_command`. -/
def pattern_command (env : Env) (s : State) (args : List PyStr) : PyStr :=
  match args with
  | [] => patternUsage
  | pattern :: _ =>
    let head := lit "Files matching pattern \"" ++ pattern ++ lit "\" in "
      ++ s.current_dir ++ lit ":\n"
    let hostRes : Option (PyStr × Bool) :=
      if s.current_dir = lit "DH0:" && env.win && env.pathExists (lit "C:\\") then
        match env.listdir (lit "C:\\") with
        | .ok items =>
            some (items.foldl
              (fun acc item =>
                if pattern = lit "*" || pyStartswith pattern item
                    || (pyStartswith (lit "~") pattern
                        && pyStartswith (pattern.drop 1) item) then
                  (acc.1
                    ++ (if env.pathIsDir (osJoin '\\' (lit "C:\\") item) then
                          lit "  " ++ item ++ lit "/ (drwx)\n"
                        else lit "  " ++ item ++ lit " (rwed)\n"),
                   true)
                else acc)
              (([] : PyStr), false))
        | _ => none
      else none
    match hostRes with
    | some (ls, true) => head ++ ls
    | _ =>
      let gen := s.files.foldl
        (fun acc kv =>
          if pyStartswith s.current_dir kv.1 then
            let name := kv.1.drop (s.current_dir.length + 1)
            let matched :=
              if pattern = lit "#?" then
                !name.isEmpty && !name.contains '/' && name.length = 1
              else if pyStartswith (lit "~") pattern then
                !name.isEmpty && !name.contains '/'
                  && pyStartswith (pattern.drop 1) name
              else if pattern = lit "*" then !name.isEmpty && !name.contains '/'
              else !name.isEmpty && !name.contains '/' && name = pattern
            if matched then (acc.1 ++ lit "  " ++ name ++ lit " (rwed)\n", true)
            else acc
          else acc)
        (([] : PyStr), false)
      if gen.2 then head ++ gen.1
      else head ++ gen.1 ++ lit "  No files match the pattern.\n"

/-- The verb-table dispatch of `execute_command`, applied after the raw
line has been appended to the history (state `s1`). -/
def dispatchVerb (env : Env) (s1 : State) (cmd : PyStr) (args : List PyStr) :
    State × CmdResult :=
  if cmd = lit "dir" then (s1, .text (list_files env s1 none))
  else if cmd = lit "cd" then
    let r := change_directory env s1 (pyJoinChar ' ' args)
    (r.1, .text r.2)
  else if cmd = lit "info" then (s1, .text (info_command env))
  else if cmd = lit "avail" then (s1, .text avail_command)
  else if cmd = lit "status" then (s1, .text status_command)
  else if cmd = lit "mount" then (s1, .text (mount_command s1))
  else if cmd = lit "echo" then (s1, .text (pyJoinChar ' ' args ++ lit "\n"))
  else if cmd = lit "date" then (s1, .text (env.now ++ lit "\n"))
  else if cmd = lit "help" then (s1, .text help_command)
  else if cmd = lit "amiga" then (s1, .text amiga_command)
  else if cmd = lit "ping" then (s1, .text (ping_command args))
  else if cmd = lit "pattern" then (s1, .text (pattern_command env s1 args))
  else if cmd = lit "cls" || cmd = lit "clear" then (s1, .clear)
  else
    (s1, .text (lit "Command '" ++ cmd
      ++ lit "' not found. Type 'help' for available commands.\n"))

/-- `AmigaTerminal.execute_command`: tokenise, apply the device-shorthand
rule on the first token *before* the history append, then dispatch on the
verb table. -/
def execute_command (env : Env) (s : State) (command_text : PyStr) : State × CmdResult :=
  let parts := pySplitWs (pyStrip command_text)
  match parts with
  | [] => (s, .text [])
  | cmd0 :: args =>
    let cmd := pyLower cmd0
    if pyEndswith (lit ":") cmd
        && (s.directories.map (fun kv => pyUpper kv.1)).contains (pyUpper cmd) then
      let r := change_directory env s cmd
      (r.1, .text r.2)
    else
      dispatchVerb env { s with command_history := s.command_history ++ [command_text] }
        cmd args

/-- `ntpath.basename` for the `C:\`-rooted paths the autocomplete uses. -/
def ntBasename (p : PyStr) : PyStr :=
  (p.reverse.takeWhile (fun c => c ≠ '\\' && c ≠ '/')).reverse

/-- `ntpath.dirname` for the `C:\`-rooted paths the autocomplete uses:
drop the basename, strip trailing separators, but keep the drive root
`C:\` intact. -/
def ntDirname (p : PyStr) : PyStr :=
  let base := ntBasename p
  let headRaw := p.take (p.length - base.length)
  let headStripped := (headRaw.reverse.dropWhile (fun c => c = '\\' || c = '/')).reverse
  if headStripped = lit "C:" && headRaw ≠ lit "C:" then lit "C:\\" else headStripped

/-- `search_prefix.rsplit("/", 1)[0]`. -/
def rsplitSlashHead (s : PyStr) : PyStr :=
  if s.contains '/' then
    (s.reverse.dropWhile (fun c => c ≠ '/')).drop 1 |>.reverse
  else s

/-- The placeholder `DH0:` autocomplete block of `get_directory_contents`
(lines 583-599 of `wsa.py`). -/
def dh0PlaceholderMatches (s : State) (pathToken : PyStr) : List PyStr :=
  let dirM := (dictGetD (lit "DH0:") s.directories []).foldl
    (fun acc d =>
      let full := lit "DH0:" ++ d ++ ['/']
      if pyStartswith pathToken full then acc ++ [full] else acc) []
  s.files.foldl
    (fun acc kv =>
      if pyStartswith (lit "DH0:") kv.1 then
        let file_name := kv.1.drop 4
        if !file_name.contains '/' then
          let full := lit "DH0:" ++ file_name
          if pyStartswith pathToken full then acc ++ [full] else acc
        else acc
      else acc)
    dirM

/-- The per-device placeholder autocomplete block of
`get_directory_contents` (lines 602-619 of `wsa.py`). -/
def deviceMatches (s : State) (device pathToken : PyStr) : List PyStr :=
  let dirM := (dictGetD device s.directories []).foldl
    (fun acc dir_name =>
      let full := device ++ dir_name ++ ['/']
      if pyStartswith pathToken full then acc ++ [full] else acc) []
  s.files.foldl
    (fun acc kv =>
      if pyStartswith device kv.1 then
        let file_name := kv.1.drop device.length
        if !file_name.contains '/' then
          let full := device ++ file_name
          if pyStartswith pathToken full then acc ++ [full] else acc
        else acc
      else acc)
    dirM

/-- The relative-token autocomplete block of `get_directory_contents`
(lines 621-656 of `wsa.py`). -/
def relativeMatches (env : Env) (s : State) (pathToken : PyStr) : List PyStr :=
  let hostPart : Option (List PyStr) :=
    if s.current_dir = lit "DH0:" && env.win then
      if env.pathExists (lit "C:\\") && env.pathIsDir (lit "C:\\") then
        match env.listdir (lit "C:\\") with
        | .ok items =>
            some (items.foldl
              (fun acc item =>
                if pyStartswith pathToken item then
                  acc ++ [if env.pathIsDir (osJoin '\\' (lit "C:\\") item) then
                            item ++ lit "/"
                          else item]
                else acc) [])
        | _ => none
      else none
    else none
  match hostPart with
  | some ms => ms
  | none =>
      let dirM := (dictGetD s.current_dir s.directories []).foldl
        (fun acc dir_name =>
          if pyStartswith pathToken dir_name then acc ++ [dir_name ++ lit "/"]
          else acc) []
      s.files.foldl
        (fun acc kv =>
          if pyStartswith (s.current_dir ++ ['/']) kv.1 then
            let file_name := kv.1.drop (s.current_dir.length + 1)
            if !file_name.contains '/' && pyStartswith pathToken file_name then
              acc ++ [file_name]
            else acc
          else acc)
        dirM

/-- `AmigaTerminal.get_directory_contents` — the autocomplete / existence
check over a path token.  The host branch consults the exact translated
path only (no trailing-separator retry) and otherwise falls back to the
placeholder content. -/
def get_directory_contents (env : Env) (s : State) (pathToken : PyStr) : List PyStr :=
  if pyStartswith (lit "DH0:") pathToken then
    if env.win then
      let fs_path := if pathToken = lit "DH0:" then lit "C:\\" else dh0Translate pathToken
      let search := if pathToken = lit "DH0:" then ([] : PyStr) else pathToken
      if env.pathExists fs_path && env.pathIsDir fs_path then
        let usePartial := !search.isEmpty && !pyEndswith (lit "/") search
          && !pyEndswith (lit "\\") search
        let parent_path := if usePartial then ntDirname fs_path else fs_path
        let partial_name := if usePartial then ntBasename fs_path else []
        match env.listdir parent_path with
        | .ok items =>
            items.foldl
              (fun acc item =>
                if partial_name.isEmpty || pyStartswith partial_name item then
                  let item_path := osJoin '\\' parent_path item
                  let full_path :=
                    if !search.isEmpty then
                      if !partial_name.isEmpty then
                        let base := rsplitSlashHead search
                        if base = lit "DH0:" then lit "DH0:" ++ item
                        else base ++ '/' :: item
                      else if pyEndswith (lit "/") search || pyEndswith (lit ":") search then
                        search ++ item
                      else search ++ '/' :: item
                    else lit "DH0:" ++ item
                  acc ++ [if env.pathIsDir item_path then full_path ++ lit "/" else full_path]
                else acc) []
        | _ => dh0PlaceholderMatches s pathToken
      else dh0PlaceholderMatches s pathToken
    else dh0PlaceholderMatches s pathToken
  else
    match s.directories.find? (fun kv => pyStartswith kv.1 pathToken) with
    | some kv => deviceMatches s kv.1 pathToken
    | none => relativeMatches env s pathToken

/-- The startup virtual directory table of `AmigaTerminal.__init__`
(non-Windows host, so `DH0:` carries the placeholder content). -/
def initDirectories : List (PyStr × List PyStr) :=
  [(lit "SYS:", [lit "Prefs", lit "Tools", lit "L", lit "S", lit "C",
                 lit "DEVS", lit "Fonts", lit "WBStartup"]),
   (lit "RAM:", [lit "T"]),
   (lit "C:", [lit "Info", lit "Avail", lit "Status", lit "Mount", lit "Ed",
               lit "Dir", lit "Cd", lit "Pattern", lit "Date", lit "Echo",
               lit "Help", lit "Amiga", lit "Ping"]),
   (lit "DH0:", [lit "Windows", lit "Program Files", lit "Users",
                 lit "Documents and Settings"])]

/-- The startup virtual file table of `AmigaTerminal.__init__`
(non-Windows host). -/
def initFiles : List (PyStr × PyStr) :=
  [(lit "SYS:Prefs/Env-Archive", lit "Environment variables archive"),
   (lit "SYS:Prefs/Env", lit "Current environment variables"),
   (lit "SYS:Tools/Shell-Startup", lit "Shell startup script"),
   (lit "SYS:S/Startup-Sequence", Console.startupSequenceText),
   (lit "RAM:T/Temp-File", lit "Temporary file"),
   (lit "C:Info", lit "System information utility"),
   (lit "C:Avail", lit "List available commands"),
   (lit "C:Status", lit "Show system status"),
   (lit "C:Mount", lit "Mount volumes"),
   (lit "C:Ed", lit "Text editor"),
   (lit "C:Dir", lit "Directory listing"),
   (lit "C:Cd", lit "Change directory"),
   (lit "C:Pattern", lit "Pattern matching utility"),
   (lit "C:Date", lit "Show date and time"),
   (lit "C:Echo", lit "Echo text to terminal"),
   (lit "C:Help", lit "Display help information"),
   (lit "C:Amiga", lit "Amiga easter egg command"),
   (lit "C:Ping", lit "Network ping utility"),
   (lit "DH0:/Windows/System32/kernel32.dll", lit "Windows kernel library"),
   (lit "DH0:/Windows/explorer.exe", lit "Windows Explorer"),
   (lit "DH0:/Program Files/", lit "Program Files directory"),
   (lit "DH0:/Users/", lit "Users directory")]

/-- Fresh web-terminal session state. -/
def initState : State :=
  { current_dir := lit "SYS:", prompt := lit "SYS:> ",
    directories := initDirectories, files := initFiles, command_history := [] }

/-- A host environment with no reachable filesystem, used to evaluate the
model on concrete inputs. -/
def noHostEnv : Env :=
  { win := false, pathExists := fun _ => false, pathIsDir := fun _ => false,
    listdir := fun _ => .ok [], getsize := fun _ => 0,
    now := lit "1985-01-01 12:00:00", infoText := lit "Amiga 3.1\n" }

end Web

namespace Script
/-!
The startup-script runner `_run_startup_script` (present with the same
control flow in both sources; the `wsa.py` version, which returns its
output, is embedded).  The body of the per-line `try` block — the echo
special case and the verb dispatch, lines 146-189 of `wsa.py` — is
abstracted as an execution oracle `ex` returning either an updated state
plus output text, or the message of a raised exception; the runner itself
is what strips lines, skips comments, catches and formats faults, and
continues.  In the pure embedding no concrete dispatch can fault, so the
oracle keeps the `except` arm meaningful for every possible body.
-/

/-- The exact fault report of the runner's `except` arm. -/
def errText (line msg : PyStr) : PyStr :=
  lit "Error executing startup command '" ++ line ++ lit "': " ++ msg ++ lit "\n"

/-- One iteration of the runner's `for` loop: strip the line, skip blank
and `;`-comment lines, otherwise run the body and either append its
output or append the formatted fault text and keep the prior state. -/
def runStep {σ : Type} (ex : σ → PyStr → Except PyStr (σ × PyStr))
    (acc : σ × PyStr) (rawLine : PyStr) : σ × PyStr :=
  let line := pyStrip rawLine
  if line.isEmpty || pyStartswith (lit ";") line then acc
  else
    match ex acc.1 line with
    | .ok r => (r.1, acc.2 ++ r.2)
    | .error e => (acc.1, acc.2 ++ errText line e)

/-- The runner's loop over the split lines. -/
def runLines {σ : Type} (ex : σ → PyStr → Except PyStr (σ × PyStr))
    (lines : List PyStr) (s : σ) : σ × PyStr :=
  lines.foldl (runStep ex) (s, [])

/-- `_run_startup_script`: header, split on newlines, run the loop. -/
def run_startup_script {σ : Type} (ex : σ → PyStr → Except PyStr (σ × PyStr))
    (script_name content : PyStr) (s : σ) : σ × PyStr :=
  let r := runLines ex (pySplitChar '\n' content) s
  (r.1, lit "Executing " ++ script_name ++ lit "...\n" ++ r.2)

/-- A sample per-line execution body over a counter state: the line
`boom` raises, every other line succeeds.  Used to exercise the runner on
a concrete script. -/
def exSample : Nat → PyStr → Except PyStr (Nat × PyStr) :=
  fun n l => if l = lit "boom" then .error (lit "kapow") else .ok (n + 1, lit "ok\n")

end Script

/-- The device roots registered at session start (keys of the directory
tables of both implementations). -/
def deviceNames : List PyStr := [lit "SYS:", lit "RAM:", lit "C:", lit "DH0:"]

/-- A canonical path in the sense of the specification glossary: a known
device root followed by a `/`-separated remainder, with no alias token as
device and no `..` segment. -/
def IsCanonicalPath (p : PyStr) : Prop :=
  ∃ d rest, d ∈ deviceNames ∧ p = d ++ rest ∧ lit ".." ∉ pySplitChar '/' rest

/-- Specification-side count of the direct-child files of `path` in a
virtual file dict. -/
def numDirectFiles (files : List (PyStr × PyStr)) (path : PyStr) : Nat :=
  (files.filter (fun kv => isDirectChild path kv.1)).length

/-- Specification-side byte total of the direct-child files of `path`
(virtual file sizes are the content lengths). -/
def bytesDirectFiles (files : List (PyStr × PyStr)) (path : PyStr) : Nat :=
  ((files.filter (fun kv => isDirectChild path kv.1)).map (fun kv => kv.2.length)).sum

namespace Web

/-- The device-shorthand test of `execute_command`: the first token of the
line, lower-cased, ends in `:` and case-insensitively matches a key of the
device table. -/
def isDeviceShorthand (s : State) (command_text : PyStr) : Bool :=
  match pySplitWs (pyStrip command_text) with
  | [] => false
  | cmd0 :: _ =>
      let cmd := pyLower cmd0
      pyEndswith (lit ":") cmd
        && (s.directories.map (fun kv => pyUpper kv.1)).contains (pyUpper cmd)

/-- Host oracle for the retry scenario: only the path `C:\Foo\` (with the
trailing separator) exists, is a directory, and lists one file. -/
def retryEnv : Env :=
  { win := true,
    pathExists := fun q => q == lit "C:\\Foo\\",
    pathIsDir := fun q => q == lit "C:\\Foo\\",
    listdir := fun q => if q == lit "C:\\Foo\\" then .ok [lit "a.txt"] else .ok [],
    getsize := fun _ => 3,
    now := lit "1985-01-01 12:00:00", infoText := lit "Amiga 3.1\n" }

/-- A minimal session state (empty `DH0:` placeholder content) for the
retry scenario. -/
def retryState : State :=
  { current_dir := lit "SYS:", prompt := lit "SYS:> ",
    directories := [(lit "SYS:", []), (lit "DH0:", [])], files := [],
    command_history := [] }

end Web

/-!
## Theorems

Helper lemmas first, then one named theorem per claim (with witnesses and
counterexamples where required).
-/

/-- A nonempty startswith test pins down the head of the string. -/
theorem startswith_head {a : Char} {p u : PyStr}
    (h : pyStartswith (a :: p) u = true) : ∃ us, u = a :: us ∧ pyStartswith p us = true := by
  cases u with
  | nil => simp [pyStartswith] at h
  | cons c cs =>
      simp only [pyStartswith, Bool.and_eq_true, beq_iff_eq] at h
      exact ⟨cs, by rw [h.1], h.2⟩

/-- `startswith` is exactly the prefix relation. -/
theorem pyStartswith_iff : ∀ (p u : PyStr), pyStartswith p u = true ↔ ∃ v, u = p ++ v
  | [], u => by simp [pyStartswith]
  | p :: ps, [] => by simp [pyStartswith]
  | p :: ps, c :: cs => by
      simp only [pyStartswith, Bool.and_eq_true, beq_iff_eq]
      constructor
      · rintro ⟨rfl, h⟩
        obtain ⟨v, rfl⟩ := (pyStartswith_iff ps cs).1 h
        exact ⟨v, rfl⟩
      · rintro ⟨v, hv⟩
        rw [List.cons_append] at hv
        injection hv with h1 h2
        exact ⟨h1.symm, (pyStartswith_iff ps cs).2 ⟨v, h2⟩⟩

/-- Transitivity of the lexicographic string order. -/
theorem strLeB_trans : ∀ (a b c : PyStr),
    strLeB a b = true → strLeB b c = true → strLeB a c = true
  | [], _, _, _, _ => rfl
  | _ :: _, [], _, hab, _ => by simp [strLeB] at hab
  | _ :: _, _ :: _, [], _, hbc => by simp [strLeB] at hbc
  | a :: as, b :: bs, c :: cs, hab, hbc => by
      simp only [strLeB] at hab hbc ⊢
      by_cases h1 : a < b
      · by_cases h2 : b < c
        · simp [lt_trans h1 h2]
        · by_cases h3 : b = c
          · subst h3; simp [h1]
          · simp [h2, h3] at hbc
      · by_cases h1e : a = b
        · subst h1e
          rw [if_neg h1, if_pos rfl] at hab
          by_cases h2 : a < c
          · simp [h2]
          · by_cases h3 : a = c
            · subst h3
              rw [if_neg h2, if_pos rfl] at hbc ⊢
              exact strLeB_trans as bs cs hab hbc
            · simp [h2, h3] at hbc
        · simp [h1, h1e] at hab

/-- Totality of the lexicographic string order. -/
theorem strLeB_total : ∀ (a b : PyStr), (strLeB a b || strLeB b a) = true
  | [], _ => by simp [strLeB]
  | _ :: _, [] => by simp [strLeB]
  | a :: as, b :: bs => by
      simp only [strLeB]
      rcases lt_trichotomy a b with h | h | h
      · simp [h]
      · subst h; simpa using strLeB_total as bs
      · simp [lt_asymm h, ne_of_gt h, h]

/-- Transitivity of the case-insensitive comparison. -/
theorem ciLe_trans (a b c : PyStr) (h1 : ciLe a b = true) (h2 : ciLe b c = true) :
    ciLe a c = true := strLeB_trans _ _ _ h1 h2

/-- Totality of the case-insensitive comparison. -/
theorem ciLe_total (a b : PyStr) : (ciLe a b || ciLe b a) = true := strLeB_total _ _

/-- `list.sort(key=str.lower)` really sorts case-insensitively. -/
theorem pySortCI_sorted (l : List PyStr) :
    List.Pairwise (fun a b => ciLe a b = true) (pySortCI l) :=
  @List.sorted_mergeSort _ ciLe (fun a b c => ciLe_trans a b c) (fun a b => ciLe_total a b) l

/-- One runner step only appends to the accumulated output. -/
theorem runStep_shift {σ : Type} (ex : σ → PyStr → Except PyStr (σ × PyStr))
    (s : σ) (o : PyStr) (line : PyStr) :
    Script.runStep ex (s, o) line
      = ((Script.runStep ex (s, []) line).1, o ++ (Script.runStep ex (s, []) line).2) := by
  unfold Script.runStep
  dsimp only
  split
  · simp
  · split <;> simp

/-- The runner loop from an arbitrary accumulator equals the loop from the
empty accumulator with the prior output prepended. -/
theorem runLines_shift {σ : Type} (ex : σ → PyStr → Except PyStr (σ × PyStr))
    (lines : List PyStr) (s : σ) (o : PyStr) :
    List.foldl (Script.runStep ex) (s, o) lines
      = ((Script.runLines ex lines s).1, o ++ (Script.runLines ex lines s).2) := by
  induction lines generalizing s o with
  | nil => simp [Script.runLines]
  | cons l ls ih =>
      rw [show Script.runLines ex (l :: ls) s
            = List.foldl (Script.runStep ex) (Script.runStep ex (s, []) l) ls from rfl,
          List.foldl_cons, runStep_shift,
          show Script.runStep ex (s, []) l
            = ((Script.runStep ex (s, []) l).1, (Script.runStep ex (s, []) l).2) from rfl,
          ih, ih]
      simp [List.append_assoc]

/-- The runner processes a concatenation of scripts compositionally. -/
theorem runLines_append {σ : Type} (ex : σ → PyStr → Except PyStr (σ × PyStr))
    (l1 l2 : List PyStr) (s : σ) :
    Script.runLines ex (l1 ++ l2) s
      = ((Script.runLines ex l2 (Script.runLines ex l1 s).1).1,
         (Script.runLines ex l1 s).2
           ++ (Script.runLines ex l2 (Script.runLines ex l1 s).1).2) := by
  unfold Script.runLines
  rw [List.foldl_append,
      show List.foldl (Script.runStep ex) (s, ([] : PyStr)) l1
        = ((List.foldl (Script.runStep ex) (s, ([] : PyStr)) l1).1,
           (List.foldl (Script.runStep ex) (s, ([] : PyStr)) l1).2) from rfl,
      runLines_shift]
  rfl

/-- Splitting `dev ++ [sep]` when `dev` avoids the separator. -/
theorem pySplitCharAux_append_sep (sep : Char) :
    ∀ (dev cur : PyStr), sep ∉ dev →
      pySplitCharAux sep cur (dev ++ [sep]) = [cur.reverse ++ dev, []]
  | [], cur, _ => by simp [pySplitCharAux]
  | d :: ds, cur, h => by
      have hd : ¬(d == sep) = true := by
        simp only [beq_iff_eq]
        intro he
        exact h (by simp [he])
      simp only [List.cons_append, pySplitCharAux, if_neg hd]
      rw [show ds.append [sep] = ds ++ [sep] from rfl,
          pySplitCharAux_append_sep sep ds (d :: cur)
            (fun hm => h (List.mem_cons_of_mem _ hm))]
      simp

/-- `dev:` splits into the device name and an empty remainder. -/
theorem pySplitChar_device_root (dev : PyStr) (h : ':' ∉ dev) :
    pySplitChar ':' (dev ++ [':']) = [dev, []] := by
  unfold pySplitChar
  rw [pySplitCharAux_append_sep ':' dev [] h]
  simp

/-- At any device root the shared `..` computation returns `SYS:`. -/
theorem parentOf_device_root (dev : PyStr) (h : ':' ∉ dev) :
    parentOf (dev ++ [':']) = lit "SYS:" := by
  unfold parentOf
  rw [pySplitChar_device_root dev h]
  simp

/-- The counters of the virtual file loop, from an arbitrary accumulator:
one pass over the dict counts the direct children and sums their sizes. -/
theorem virtFileFold_count_aux (env : Console.Env) (path : PyStr) :
    ∀ (files : List (PyStr × PyStr)) (acc : List PyStr × Nat × Nat),
      (List.foldl
        (fun acc kv =>
          if isDirectChild path kv.1 then
            let file_size := kv.2.length
            (acc.1 ++ [Console.fileLine (kv.1.drop (path.length + 1)) file_size env.nowDateFull],
             acc.2.1 + 1, acc.2.2 + file_size)
          else acc)
        acc files).2
      = (acc.2.1 + numDirectFiles files path, acc.2.2 + bytesDirectFiles files path)
  | [], acc => by simp [numDirectFiles, bytesDirectFiles]
  | kv :: fs, acc => by
      rw [List.foldl_cons]
      by_cases h : isDirectChild path kv.1
      · rw [if_pos h, virtFileFold_count_aux env path fs]
        simp [numDirectFiles, bytesDirectFiles, List.filter_cons, h, Prod.mk.injEq]
        omega
      · rw [if_neg h, virtFileFold_count_aux env path fs]
        simp [numDirectFiles, bytesDirectFiles, List.filter_cons, h]

/-- The counters of `virtFileFold` are the direct-child file count and the
direct-child byte total. -/
theorem virtFileFold_spec (env : Console.Env) (path : PyStr)
    (files : List (PyStr × PyStr)) :
    (Console.virtFileFold env path files).2
      = (numDirectFiles files path, bytesDirectFiles files path) := by
  unfold Console.virtFileFold
  rw [virtFileFold_count_aux env path files]
  simp

/-- `change_directory` of the web terminal never touches the history. -/
theorem web_cd_keeps_history (env : Web.Env) (s : Web.State) (p : PyStr) :
    (Web.change_directory env s p).1.command_history = s.command_history := by
  unfold Web.change_directory
  repeat' (first | split | (dsimp only; split))
  all_goals rfl

/-- The verb dispatch never touches the history it was handed. -/
theorem web_dispatch_keeps_history (env : Web.Env) (s1 : Web.State)
    (cmd : PyStr) (args : List PyStr) :
    (Web.dispatchVerb env s1 cmd args).1.command_history = s1.command_history := by
  unfold Web.dispatchVerb
  by_cases h1 : cmd = lit "dir"
  · rw [if_pos h1]
  rw [if_neg h1]
  by_cases h2 : cmd = lit "cd"
  · rw [if_pos h2]
    exact web_cd_keeps_history env s1 (pyJoinChar ' ' args)
  rw [if_neg h2]
  by_cases h3 : cmd = lit "info"
  · rw [if_pos h3]
  rw [if_neg h3]
  by_cases h4 : cmd = lit "avail"
  · rw [if_pos h4]
  rw [if_neg h4]
  by_cases h5 : cmd = lit "status"
  · rw [if_pos h5]
  rw [if_neg h5]
  by_cases h6 : cmd = lit "mount"
  · rw [if_pos h6]
  rw [if_neg h6]
  by_cases h7 : cmd = lit "echo"
  · rw [if_pos h7]
  rw [if_neg h7]
  by_cases h8 : cmd = lit "date"
  · rw [if_pos h8]
  rw [if_neg h8]
  by_cases h9 : cmd = lit "help"
  · rw [if_pos h9]
  rw [if_neg h9]
  by_cases h10 : cmd = lit "amiga"
  · rw [if_pos h10]
  rw [if_neg h10]
  by_cases h11 : cmd = lit "ping"
  · rw [if_pos h11]
  rw [if_neg h11]
  by_cases h12 : cmd = lit "pattern"
  · rw [if_pos h12]
  rw [if_neg h12]
  by_cases h13 : (decide (cmd = lit "cls") || decide (cmd = lit "clear")) = true
  · rw [if_pos h13]
  rw [if_neg h13]

/-- The last printed line of a listing of shape
`header :: dirRows ++ fileRows ++ [footer]` is the footer. -/
theorem getLast?_listing_shape {α : Type} (a : α) (l : List α) (x : α) :
    (a :: (l ++ [x])).getLast? = some x := by
  rw [show a :: (l ++ [x]) = (a :: l) ++ [x] by simp]
  exact List.getLast?_concat _

/-- Every branch of the console `_change_directory` either succeeds with
empty output or reports text and returns the state untouched. -/
theorem console_cd_cases (env : Console.Env) (s : Console.State) (p : PyStr) :
    (Console.change_directory env s p).2 = []
      ∨ (Console.change_directory env s p).1 = s := by
  unfold Console.change_directory Console.change_shared_folder_directory
  repeat' (first | split | (dsimp only; split))
  all_goals simp

/-- Every branch of the web `change_directory` either succeeds with empty
output or reports text and returns the state untouched. -/
theorem web_cd_cases (env : Web.Env) (s : Web.State) (p : PyStr) :
    (Web.change_directory env s p).2 = []
      ∨ (Web.change_directory env s p).1 = s := by
  unfold Web.change_directory
  repeat' (first | split | (dsimp only; split))
  all_goals simp

/-- C3: a failed change-directory (any branch that returns descriptive
text rather than empty output) leaves the whole session state — in
particular the current directory — exactly as it was, in both
implementations; the embedded functions are total, so no exception can
reach the caller. -/
theorem cd_failure_text_preserves_state :
    (∀ (env : Console.Env) (s : Console.State) (p : PyStr),
        (Console.change_directory env s p).2 ≠ [] →
        (Console.change_directory env s p).1 = s)
  ∧ (∀ (env : Web.Env) (s : Web.State) (p : PyStr),
        (Web.change_directory env s p).2 ≠ [] →
        (Web.change_directory env s p).1 = s) :=
  ⟨fun env s p h => (console_cd_cases env s p).resolve_left h,
   fun env s p h => (web_cd_cases env s p).resolve_left h⟩

/-- Witness for C3: `cd Nope` from the fresh console session reports
`Directory Nope not found.` and leaves the session state intact. -/
theorem cd_failure_text_preserves_state_witness :
    (Console.change_directory Console.noHostEnv Console.initState (lit "Nope")).2 ≠ []
  ∧ (Console.change_directory Console.noHostEnv Console.initState (lit "Nope")).1
      = Console.initState :=
  ⟨by decide, cd_failure_text_preserves_state.1 _ _ _ (by decide)⟩

/-- C10: one `execute_command` call either leaves the history unchanged —
exactly for blank lines and device-shorthand lines — or appends the raw
command line as one entry at the end; no branch removes, reorders or
rewrites existing entries. -/
theorem web_history_append_only (env : Web.Env) (s : Web.State) (line : PyStr) :
    ((Web.execute_command env s line).1.command_history = s.command_history
        ∧ (pySplitWs (pyStrip line) = [] ∨ Web.isDeviceShorthand s line = true))
  ∨ ((Web.execute_command env s line).1.command_history = s.command_history ++ [line]
        ∧ pySplitWs (pyStrip line) ≠ [] ∧ Web.isDeviceShorthand s line = false) := by
  rcases hp : pySplitWs (pyStrip line) with _ | ⟨cmd0, args⟩
  · exact Or.inl ⟨by simp [Web.execute_command, hp], Or.inl rfl⟩
  · by_cases hsh : (pyEndswith (lit ":") (pyLower cmd0)
        && (s.directories.map (fun kv => pyUpper kv.1)).contains (pyUpper (pyLower cmd0)))
        = true
    · refine Or.inl ⟨?_, Or.inr ?_⟩
      · simp only [Web.execute_command, hp]
        rw [if_pos hsh]
        exact web_cd_keeps_history env s (pyLower cmd0)
      · simp only [Web.isDeviceShorthand, hp]
        exact hsh
    · refine Or.inr ⟨?_, by simp [hp], ?_⟩
      · simp only [Web.execute_command, hp]
        rw [if_neg hsh, web_dispatch_keeps_history]
      · simp only [Web.isDeviceShorthand, hp]
        exact Bool.eq_false_iff.mpr hsh

/-- Counterexample to the claim that `..` is an "already at root" no-op at
*every* device root: at the `RAM:` root the console terminal silently
moves the session to `SYS:` instead. -/
theorem console_cd_parent_at_ram_root_cex :
    (Console.change_directory Console.noHostEnv Console.ramRootState
        (lit "..")).1.current_dir = lit "SYS:"
  ∧ (Console.change_directory Console.noHostEnv Console.ramRootState
        (lit "..")).2 = ([] : PyStr)
  ∧ lit "SYS:" ≠ lit "RAM:"
  ∧ ([] : PyStr) ≠ lit "Already at root directory." := by decide

/-- C1 (amended): with `..` as the argument, the console change-directory
clamps only at `SYS:` — there it reports "Already at root directory." and
leaves the state untouched — while at *any other* device root it silently
moves the session to `SYS:` with empty output.  (The `..:` mount-table
hypothesis rules out a mounted shared-folder device named `..:`, which no
configuration can produce.) -/
theorem console_cd_parent_at_device_root (env : Console.Env) (s : Console.State)
    (dev : PyStr) (hmount : List.lookup (lit "..:") s.mounted = none)
    (hcur : s.current_dir = dev ++ [':']) (hdev : ':' ∉ dev) :
    (s.current_dir = lit "SYS:" →
       Console.change_directory env s (lit "..")
         = (s, lit "Already at root directory."))
  ∧ (s.current_dir ≠ lit "SYS:" →
       (Console.change_directory env s (lit "..")).1.current_dir = lit "SYS:"
         ∧ (Console.change_directory env s (lit "..")).2 = ([] : PyStr)) := by
  have hdev0 : Console.deviceOf (lit "..") = lit "..:" := by decide
  constructor
  · intro hroot
    unfold Console.change_directory
    dsimp only
    rw [hdev0, hmount]
    rw [if_neg (by decide : ¬ pyUpper (lit "..") = lit "DH0:")]
    rw [if_pos (by decide : (decide (lit ".." = lit "..")
          || pyStartswith (lit "../") (lit "..")) = true)]
    rw [if_pos hroot]
  · intro hroot
    unfold Console.change_directory
    dsimp only
    rw [hdev0, hmount]
    rw [if_neg (by decide : ¬ pyUpper (lit "..") = lit "DH0:")]
    rw [if_pos (by decide : (decide (lit ".." = lit "..")
          || pyStartswith (lit "../") (lit "..")) = true)]
    rw [if_neg hroot]
    rw [if_neg (by decide : ¬ pyStartswith (lit "../") (lit "..") = true)]
    dsimp only
    rw [hcur, parentOf_device_root dev hdev]
    exact ⟨rfl, rfl⟩

/-- Witness for the amended C1 at the concrete `RAM:` root. -/
theorem console_cd_parent_at_device_root_witness :
    Console.ramRootState.current_dir ≠ lit "SYS:"
  ∧ ((Console.change_directory Console.noHostEnv Console.ramRootState
        (lit "..")).1.current_dir = lit "SYS:"
      ∧ (Console.change_directory Console.noHostEnv Console.ramRootState
          (lit "..")).2 = ([] : PyStr)) :=
  ⟨by decide,
   (console_cd_parent_at_device_root Console.noHostEnv Console.ramRootState
      (lit "RAM") rfl rfl (by decide)).2 (by decide)⟩

/-- Counterexample to the claimed listing footer: a fresh session's `dir`
at `SYS:` (8 subdirectories, 0 direct files) reports `8 files`, because
the footer's file figure is the *sum* of the directory and file counts,
not the file count. -/
theorem console_sys_listing_footer_cex :
    (Console.list_files_at Console.noHostEnv Console.initState (lit "SYS:")).getLast?
        = some (lit "8 files - 8 directories - 0 bytes used")
  ∧ lit "8 files - 8 directories - 0 bytes used"
        ≠ lit "0 files - 8 directories - 0 bytes used" := by decide

/-- C2 (amended): for every virtual directory listed through the general
branch (not a mounted shared folder, not `DH0:`-prefixed, not the `C:`
special case), the footer reports `N + M` in its files figure, `M`
directories, and total bytes equal to the sum of the `N` direct-child
files' content lengths — where `M` is the stored subdirectory count and
`N` the direct-child file count. -/
theorem console_listing_footer_amended (env : Console.Env) (s : Console.State)
    (path : PyStr)
    (hmount : List.lookup (Console.deviceOf path) s.mounted = none)
    (hdh0 : pyStartswith (lit "DH0:") (pyUpper path) = false)
    (hC : path ≠ lit "C:")
    (hmem : memKey path s.directories = true) :
    (Console.list_files_at env s path).getLast?
      = some (Console.footerLine
          ((dictGetD path s.directories []).length + numDirectFiles s.files path)
          (dictGetD path s.directories []).length
          (bytesDirectFiles s.files path)) := by
  unfold Console.list_files_at
  dsimp only
  rw [hmount]
  rw [if_neg (by simp [hdh0])]
  rw [if_neg hC]
  rw [if_neg (by simp [hmem])]
  unfold Console.generalVirtualListing
  dsimp only
  rw [List.getLast?_concat]
  simp [virtFileFold_spec]

/-- Witness for the amended C2 at the fresh session's `SYS:` listing. -/
theorem console_listing_footer_amended_witness :
    memKey (lit "SYS:") Console.initState.directories = true
  ∧ (Console.list_files_at Console.noHostEnv Console.initState (lit "SYS:")).getLast?
      = some (Console.footerLine
          ((dictGetD (lit "SYS:") Console.initState.directories []).length
            + numDirectFiles Console.initState.files (lit "SYS:"))
          (dictGetD (lit "SYS:") Console.initState.directories []).length
          (bytesDirectFiles Console.initState.files (lit "SYS:"))) :=
  ⟨by decide,
   console_listing_footer_amended Console.noHostEnv Console.initState (lit "SYS:")
     rfl (by decide) (by decide) (by decide)⟩

/-- The device-shorthand slip of `wsa.py`: typing `RAM:` is detected as
device shorthand (case-insensitively) but the change-directory lookup is
case-sensitive on the lower-cased token, so navigation fails and the
session stays at `SYS:` — contradicting the source's own help text
("Type a device name ... to automatically CD to that directory").  The
console front end shows the intent: its `precmd` rewrites the same input
to a correctly-cased `cd RAM:`. -/
theorem web_device_shorthand_case_bug :
    (Web.execute_command Web.noHostEnv Web.initState (lit "RAM:")).2
        = Web.CmdResult.text (lit "Directory ram: not found.\n")
  ∧ (Web.execute_command Web.noHostEnv Web.initState (lit "RAM:")).1 = Web.initState
  ∧ Console.precmd Console.initState (lit "RAM:") = lit "cd RAM:" := by decide

/-- C6: resolving an already-canonical path (known device root, no alias
device, no `..` segment) returns it unchanged, whatever the current
directory: no alias prefix fires and the absolute branch passes the path
through. -/
theorem console_resolve_canonical_idempotent (s : Console.State) (p : PyStr)
    (h : IsCanonicalPath p) : Console.resolve_path s p = p := by
  obtain ⟨d, rest, hd, rfl, -⟩ := h
  simp only [deviceNames, List.mem_cons, List.not_mem_nil, or_false] at hd
  rcases hd with rfl | rfl | rfl | rfl <;> rfl

/-- Witness for C6 on a concrete canonical path from the `RAM:` root. -/
theorem console_resolve_canonical_idempotent_witness :
    IsCanonicalPath (lit "SYS:S/Startup-Sequence")
  ∧ Console.resolve_path Console.ramRootState (lit "SYS:S/Startup-Sequence")
      = lit "SYS:S/Startup-Sequence" :=
  ⟨⟨lit "SYS:", lit "S/Startup-Sequence", by decide, rfl, by decide⟩,
   console_resolve_canonical_idempotent Console.ramRootState _
     ⟨lit "SYS:", lit "S/Startup-Sequence", by decide, rfl, by decide⟩⟩

/-- Counterexample to case-insensitive sorting in *every* listing: the
virtual `SYS:` listing prints `Tools` immediately before `L`, i.e. the
stored table order, which is not sorted case-insensitively. -/
theorem console_virtual_listing_unsorted_cex :
    (Console.list_files_at Console.noHostEnv Console.initState (lit "SYS:"))[2]?
        = some (Console.dirLine (lit "Tools") (lit "01-Jan-85 12:00:00"))
  ∧ (Console.list_files_at Console.noHostEnv Console.initState (lit "SYS:"))[3]?
        = some (Console.dirLine (lit "L") (lit "01-Jan-85 12:00:00"))
  ∧ ciLe (lit "Tools") (lit "L") = false := by decide

/-- C7: when a raw path token's device prefix matches a logical alias
case-insensitively, `_resolve_path` substitutes the alias's canonical
device+subpath and appends the remainder; the canonical result never
carries an alias as its device prefix; and a bare alias token (the whole
line, case-insensitively) is rewritten by `precmd` into an explicit `cd`
to the alias target. -/
theorem console_alias_substitution (s : Console.State) (t : PyStr)
    (la : PyStr × PyStr) (hla : la ∈ Console.logical_assignments)
    (hmatch : pyStartswith la.1 (pyUpper t) = true)
    (hcolon : t.contains ':' = true) :
    Console.resolve_path s t
      = (if (t.drop la.1.length).isEmpty then la.2
         else la.2 ++ '/' :: t.drop la.1.length)
  ∧ (∀ la2 ∈ Console.logical_assignments,
      pyStartswith la2.1 (pyUpper (Console.resolve_path s t)) = false)
  ∧ (pyUpper t = la.1 → Console.precmd s t = lit "cd " ++ la.2) := by
  simp only [Console.logical_assignments, List.mem_cons, List.not_mem_nil,
    or_false] at hla
  rcases hla with rfl | rfl | rfl | rfl | rfl
  · obtain ⟨v, hv⟩ := (pyStartswith_iff (lit "S:") (pyUpper t)).1 hmatch
    have hne : t.isEmpty = false := by
      cases t
      · exact absurd hcolon (by decide)
      · rfl
    have hres : Console.resolve_path s t
        = (if (t.drop (lit "S:").length).isEmpty then lit "SYS:S"
           else lit "SYS:S" ++ '/' :: t.drop (lit "S:").length) := by
      unfold Console.resolve_path
      rw [if_neg (by simp [hne]), if_pos hcolon]
      unfold Console.aliasSubst Console.logical_assignments
      rw [hv]
      rfl
    refine ⟨hres, ?_, ?_⟩
    · intro la2 hla2
      rw [hres]
      simp only [Console.logical_assignments, List.mem_cons, List.not_mem_nil,
        or_false] at hla2
      by_cases hd : (t.drop (lit "S:").length).isEmpty = true
      · rw [if_pos hd]
        rcases hla2 with rfl | rfl | rfl | rfl | rfl <;> rfl
      · rw [if_neg hd]
        rcases hla2 with rfl | rfl | rfl | rfl | rfl <;> rfl
    · intro hup
      unfold Console.precmd
      rw [hup, hne, hcolon]
      rfl
  · obtain ⟨v, hv⟩ := (pyStartswith_iff (lit "L:") (pyUpper t)).1 hmatch
    have hne : t.isEmpty = false := by
      cases t
      · exact absurd hcolon (by decide)
      · rfl
    have hres : Console.resolve_path s t
        = (if (t.drop (lit "L:").length).isEmpty then lit "SYS:L"
           else lit "SYS:L" ++ '/' :: t.drop (lit "L:").length) := by
      unfold Console.resolve_path
      rw [if_neg (by simp [hne]), if_pos hcolon]
      unfold Console.aliasSubst Console.logical_assignments
      rw [hv]
      rfl
    refine ⟨hres, ?_, ?_⟩
    · intro la2 hla2
      rw [hres]
      simp only [Console.logical_assignments, List.mem_cons, List.not_mem_nil,
        or_false] at hla2
      by_cases hd : (t.drop (lit "L:").length).isEmpty = true
      · rw [if_pos hd]
        rcases hla2 with rfl | rfl | rfl | rfl | rfl <;> rfl
      · rw [if_neg hd]
        rcases hla2 with rfl | rfl | rfl | rfl | rfl <;> rfl
    · intro hup
      unfold Console.precmd
      rw [hup, hne, hcolon]
      rfl
  · obtain ⟨v, hv⟩ := (pyStartswith_iff (lit "DEVS:") (pyUpper t)).1 hmatch
    have hne : t.isEmpty = false := by
      cases t
      · exact absurd hcolon (by decide)
      · rfl
    have hres : Console.resolve_path s t
        = (if (t.drop (lit "DEVS:").length).isEmpty then lit "SYS:DEVS"
           else lit "SYS:DEVS" ++ '/' :: t.drop (lit "DEVS:").length) := by
      unfold Console.resolve_path
      rw [if_neg (by simp [hne]), if_pos hcolon]
      unfold Console.aliasSubst Console.logical_assignments
      rw [hv]
      rfl
    refine ⟨hres, ?_, ?_⟩
    · intro la2 hla2
      rw [hres]
      simp only [Console.logical_assignments, List.mem_cons, List.not_mem_nil,
        or_false] at hla2
      by_cases hd : (t.drop (lit "DEVS:").length).isEmpty = true
      · rw [if_pos hd]
        rcases hla2 with rfl | rfl | rfl | rfl | rfl <;> rfl
      · rw [if_neg hd]
        rcases hla2 with rfl | rfl | rfl | rfl | rfl <;> rfl
    · intro hup
      unfold Console.precmd
      rw [hup, hne, hcolon]
      rfl
  · obtain ⟨v, hv⟩ := (pyStartswith_iff (lit "FONTS:") (pyUpper t)).1 hmatch
    have hne : t.isEmpty = false := by
      cases t
      · exact absurd hcolon (by decide)
      · rfl
    have hres : Console.resolve_path s t
        = (if (t.drop (lit "FONTS:").length).isEmpty then lit "SYS:Fonts"
           else lit "SYS:Fonts" ++ '/' :: t.drop (lit "FONTS:").length) := by
      unfold Console.resolve_path
      rw [if_neg (by simp [hne]), if_pos hcolon]
      unfold Console.aliasSubst Console.logical_assignments
      rw [hv]
      rfl
    refine ⟨hres, ?_, ?_⟩
    · intro la2 hla2
      rw [hres]
      simp only [Console.logical_assignments, List.mem_cons, List.not_mem_nil,
        or_false] at hla2
      by_cases hd : (t.drop (lit "FONTS:").length).isEmpty = true
      · rw [if_pos hd]
        rcases hla2 with rfl | rfl | rfl | rfl | rfl <;> rfl
      · rw [if_neg hd]
        rcases hla2 with rfl | rfl | rfl | rfl | rfl <;> rfl
    · intro hup
      unfold Console.precmd
      rw [hup, hne, hcolon]
      rfl
  · obtain ⟨v, hv⟩ := (pyStartswith_iff (lit "T:") (pyUpper t)).1 hmatch
    have hne : t.isEmpty = false := by
      cases t
      · exact absurd hcolon (by decide)
      · rfl
    have hres : Console.resolve_path s t
        = (if (t.drop (lit "T:").length).isEmpty then lit "RAM:T"
           else lit "RAM:T" ++ '/' :: t.drop (lit "T:").length) := by
      unfold Console.resolve_path
      rw [if_neg (by simp [hne]), if_pos hcolon]
      unfold Console.aliasSubst Console.logical_assignments
      rw [hv]
      rfl
    refine ⟨hres, ?_, ?_⟩
    · intro la2 hla2
      rw [hres]
      simp only [Console.logical_assignments, List.mem_cons, List.not_mem_nil,
        or_false] at hla2
      by_cases hd : (t.drop (lit "T:").length).isEmpty = true
      · rw [if_pos hd]
        rcases hla2 with rfl | rfl | rfl | rfl | rfl <;> rfl
      · rw [if_neg hd]
        rcases hla2 with rfl | rfl | rfl | rfl | rfl <;> rfl
    · intro hup
      unfold Console.precmd
      rw [hup, hne, hcolon]
      rfl

/-- Witness for C7 on the alias-prefixed token `s:foo` (lower-case alias,
remainder appended) from the `RAM:` root. -/
theorem console_alias_substitution_witness :
    pyStartswith (lit "S:") (pyUpper (lit "s:foo")) = true
  ∧ (lit "s:foo").contains ':' = true
  ∧ Console.resolve_path Console.ramRootState (lit "s:foo")
      = (if ((lit "s:foo").drop (lit "S:").length).isEmpty then lit "SYS:S"
         else lit "SYS:S" ++ '/' :: (lit "s:foo").drop (lit "S:").length) :=
  ⟨by decide, by decide,
   (console_alias_substitution Console.ramRootState (lit "s:foo")
      (lit "S:", lit "SYS:S") (by decide) (by decide) (by decide)).1⟩

/-- C8 (amended): host-backed listings print the case-insensitively
sorted directory rows before the case-insensitively sorted file rows;
virtual listings also print directory rows before file rows, but in the
stored table order (no sorting), as the counterexample shows. -/
theorem console_listing_order_amended :
    (∀ (env : Console.Env) (path fs_path : PyStr) (items : List PyStr),
       env.listdir fs_path = ListdirResult.ok items →
       ∃ dnames fnames : List PyStr,
         List.Pairwise (fun a b => ciLe a b = true) dnames
         ∧ List.Pairwise (fun a b => ciLe a b = true) fnames
         ∧ Console.hostListing env path fs_path
             = Console.headerLine path (env.fileDay fs_path) (env.fileDate fs_path)
               :: dnames.map (fun d =>
                    Console.dirLine d (env.fileDateFull (osJoin env.sep fs_path d)))
               ++ fnames.map (fun f =>
                    Console.fileLine f (env.getsize (osJoin env.sep fs_path f))
                      (env.fileDateFull (osJoin env.sep fs_path f)))
               ++ [Console.footerLine (dnames.length + fnames.length) dnames.length
                    (((fnames.filter (fun f =>
                          env.pathIsFile (osJoin env.sep fs_path f))).map
                        (fun f => env.getsize (osJoin env.sep fs_path f))).sum)])
  ∧ (∀ (env : Console.Env) (s : Console.State) (path : PyStr),
       List.lookup (Console.deviceOf path) s.mounted = none →
       pyStartswith (lit "DH0:") (pyUpper path) = false →
       path ≠ lit "C:" →
       memKey path s.directories = true →
       Console.list_files_at env s path
         = Console.headerLine path env.nowDay env.nowDate
             :: (dictGetD path s.directories []).map
                  (fun d => Console.dirLine d env.nowDateFull)
             ++ (Console.virtFileFold env path s.files).1
             ++ [Console.footerLine
                  ((dictGetD path s.directories []).length
                    + (Console.virtFileFold env path s.files).2.1)
                  (dictGetD path s.directories []).length
                  (Console.virtFileFold env path s.files).2.2]) := by
  constructor
  · intro env path fs_path items h
    refine ⟨pySortCI (items.partition
        (fun item => env.pathIsDir (osJoin env.sep fs_path item))).1,
      pySortCI (items.partition
        (fun item => env.pathIsDir (osJoin env.sep fs_path item))).2,
      pySortCI_sorted _, pySortCI_sorted _, ?_⟩
    unfold Console.hostListing
    rw [h]
  · intro env s path h1 h2 h3 h4
    unfold Console.list_files_at
    dsimp only
    rw [h1, if_neg (by simp [h2]), if_neg h3, if_neg (by simp [h4])]
    rfl

/-- Witness for the amended C8: the empty host listing instance. -/
theorem console_listing_order_amended_witness :
    Console.noHostEnv.listdir (lit "/mnt/c") = ListdirResult.ok []
  ∧ ∃ dnames fnames : List PyStr,
      List.Pairwise (fun a b => ciLe a b = true) dnames
      ∧ List.Pairwise (fun a b => ciLe a b = true) fnames
      ∧ Console.hostListing Console.noHostEnv (lit "DH0:") (lit "/mnt/c")
          = Console.headerLine (lit "DH0:")
              (Console.noHostEnv.fileDay (lit "/mnt/c"))
              (Console.noHostEnv.fileDate (lit "/mnt/c"))
            :: dnames.map (fun d =>
                 Console.dirLine d (Console.noHostEnv.fileDateFull
                   (osJoin Console.noHostEnv.sep (lit "/mnt/c") d)))
            ++ fnames.map (fun f =>
                 Console.fileLine f (Console.noHostEnv.getsize
                     (osJoin Console.noHostEnv.sep (lit "/mnt/c") f))
                   (Console.noHostEnv.fileDateFull
                     (osJoin Console.noHostEnv.sep (lit "/mnt/c") f)))
            ++ [Console.footerLine (dnames.length + fnames.length) dnames.length
                 (((fnames.filter (fun f => Console.noHostEnv.pathIsFile
                       (osJoin Console.noHostEnv.sep (lit "/mnt/c") f))).map
                     (fun f => Console.noHostEnv.getsize
                       (osJoin Console.noHostEnv.sep (lit "/mnt/c") f))).sum)] :=
  ⟨rfl, console_listing_order_amended.1 Console.noHostEnv (lit "DH0:")
    (lit "/mnt/c") [] rfl⟩

/-- When the exact translated path exists, the retry leaves it alone. -/
theorem retrySep_exact (env : Web.Env) (fs : PyStr)
    (h : env.pathExists fs = true) : Web.retrySep env fs = fs := by
  unfold Web.retrySep
  rw [h]
  rfl

/-- When the exact translated path is absent but the trailing-separator
variant exists, the retry switches to the variant. -/
theorem retrySep_retry (env : Web.Env) (fs : PyStr)
    (h1 : env.pathExists fs = false)
    (h2 : pyEndswith (lit "\\") fs = false)
    (h3 : pyEndswith (lit "/") fs = false)
    (h4 : env.pathExists (fs ++ ['\\']) = true) :
    Web.retrySep env fs = fs ++ ['\\'] := by
  unfold Web.retrySep
  rw [h1, h2, h3, h4]
  rfl

/-- C9 (amended): the web terminal's `DH0:` listing and change-directory
try the exact translated host path first, and only when it is absent
retry with a trailing `\` appended before reporting not-found; the
autocomplete existence check, in contrast, consults only the exact
translated path and falls back to the placeholder content without any
retry. -/
theorem web_retry_policy_amended :
    (∀ (env : Web.Env) (s : Web.State) (p : PyStr),
       env.win = true → pyStartswith (lit "DH0:") p = true →
       env.pathExists (if p = lit "DH0:" then lit "C:\\" else Web.dh0Translate p) = true →
       env.pathIsDir (if p = lit "DH0:" then lit "C:\\" else Web.dh0Translate p) = true →
       Web.list_files env s (some p)
         = Web.hostListing env p
             (if p = lit "DH0:" then lit "C:\\" else Web.dh0Translate p))
  ∧ (∀ (env : Web.Env) (s : Web.State) (p : PyStr),
       env.win = true → pyStartswith (lit "DH0:") p = true → p ≠ lit "DH0:" →
       env.pathExists (Web.dh0Translate p) = false →
       pyEndswith (lit "\\") (Web.dh0Translate p) = false →
       pyEndswith (lit "/") (Web.dh0Translate p) = false →
       env.pathExists (Web.dh0Translate p ++ ['\\']) = true →
       env.pathIsDir (Web.dh0Translate p ++ ['\\']) = true →
       Web.list_files env s (some p)
           = Web.hostListing env p (Web.dh0Translate p ++ ['\\'])
         ∧ Web.change_directory env s p
             = ({ s with current_dir := p, prompt := p ++ lit "> " }, []))
  ∧ (∀ (env : Web.Env) (s : Web.State) (p : PyStr),
       env.win = true → pyStartswith (lit "DH0:") p = true →
       env.pathExists (if p = lit "DH0:" then lit "C:\\" else Web.dh0Translate p) = false →
       Web.get_directory_contents env s p = Web.dh0PlaceholderMatches s p) := by
  refine ⟨?_, ?_, ?_⟩
  · intro env s p hwin hpre he hd
    unfold Web.list_files
    dsimp only [Option.getD]
    rw [if_pos hpre, if_pos hwin]
    rw [retrySep_exact env _ he, if_pos (by simp [he, hd])]
  · intro env s p hwin hpre hne h1 h2 h3 h4 h5
    obtain ⟨v, hv⟩ := (pyStartswith_iff (lit "DH0:") p).1 hpre
    have hvne : v ≠ [] := by
      intro hcon
      apply hne
      rw [hv, hcon, List.append_nil]
    have hfs : (if p = lit "DH0:" then lit "C:\\" else Web.dh0Translate p)
        = Web.dh0Translate p := by
      rw [if_neg hne]
    constructor
    · unfold Web.list_files
      dsimp only [Option.getD]
      rw [if_pos hpre, if_pos hwin]
      rw [hfs, retrySep_retry env _ h1 h2 h3 h4, if_pos (by simp [h4, h5])]
    · have hupne : ¬ pyUpper p = lit "DH0:" := by
        rw [hv]
        intro hcon
        have hcon2 : 'D' :: 'H' :: '0' :: ':' :: pyUpper v
            = 'D' :: 'H' :: '0' :: ':' :: ([] : PyStr) := hcon
        have hnil : pyUpper v = ([] : PyStr) := congrArg (List.drop 4) hcon2
        exact hvne (List.map_eq_nil_iff.mp hnil)
      have hemp : ¬ p.isEmpty = true := by
        rw [hv]
        intro hcon
        exact Bool.noConfusion hcon
      have hdd : ¬ p = lit ".." := by
        rw [hv]
        intro hcon
        have hcon2 : 'D' :: 'H' :: '0' :: ':' :: v = '.' :: '.' :: ([] : PyStr) := hcon
        injection hcon2 with hcon3 _
        exact absurd hcon3 (by decide)
      have hcol : p.contains ':' = true := by rw [hv]; rfl
      have hsw : pyStartswith (lit "DH0:") (pyUpper p) = true := by rw [hv]; rfl
      unfold Web.change_directory
      rw [if_neg hupne, if_neg hemp, if_neg hdd, if_pos hcol,
          if_pos (by simp [hsw, hwin])]
      dsimp only
      rw [retrySep_retry env _ h1 h2 h3 h4, if_pos (by simp [h4, h5])]
  · intro env s p hwin hpre hne
    unfold Web.get_directory_contents
    rw [if_pos hpre, if_pos hwin]
    dsimp only
    rw [if_neg (by simp [hne])]

/-- Witness for the amended C9: the retry scenario host (`C:\Foo\` only)
with `DH0:Foo`. -/
theorem web_retry_policy_amended_witness :
    Web.retryEnv.pathExists (Web.dh0Translate (lit "DH0:Foo")) = false
  ∧ Web.retryEnv.pathExists (Web.dh0Translate (lit "DH0:Foo") ++ ['\\']) = true
  ∧ (Web.list_files Web.retryEnv Web.retryState (some (lit "DH0:Foo"))
        = Web.hostListing Web.retryEnv (lit "DH0:Foo")
            (Web.dh0Translate (lit "DH0:Foo") ++ ['\\'])
      ∧ Web.change_directory Web.retryEnv Web.retryState (lit "DH0:Foo")
          = ({ Web.retryState with current_dir := lit "DH0:Foo", prompt := lit "DH0:Foo" ++ lit "> " }, [])) :=
  ⟨by decide, by decide,
   web_retry_policy_amended.2.1 Web.retryEnv Web.retryState (lit "DH0:Foo")
     rfl (by decide) (by decide) (by decide) (by decide) (by decide)
     (by decide) (by decide)⟩

/-- Counterexample to the uniformly-applied trailing-separator retry: with
a host on which only `C:\Foo\` (trailing separator) exists, listing and
change-directory find `DH0:Foo` through the retry, while the autocomplete
existence check consults only the exact translated path and falls back to
the (empty) placeholder content — no retry. -/
theorem web_autocomplete_no_retry_cex :
    Web.get_directory_contents Web.retryEnv Web.retryState (lit "DH0:Foo") = []
  ∧ (Web.change_directory Web.retryEnv Web.retryState (lit "DH0:Foo")).1.current_dir
        = lit "DH0:Foo"
  ∧ (Web.change_directory Web.retryEnv Web.retryState (lit "DH0:Foo")).2 = ([] : PyStr)
  ∧ Web.list_files Web.retryEnv Web.retryState (some (lit "DH0:Foo"))
        ≠ lit "Directory DH0:Foo not found.\n" := by decide

/-- C4: the startup-script runner skips blank and `;`-comment lines
entirely (no execution, no output), and when executing any other line
faults, it emits exactly
`Error executing startup command '<line>': <message>` and continues with
the remaining lines from the pre-fault state — so one bad line never
aborts the rest of the script, and the runner itself (a total function)
propagates no exception. -/
theorem script_runner_line_isolation {σ : Type}
    (ex : σ → PyStr → Except PyStr (σ × PyStr))
    (name content : PyStr) (s0 : σ) (pre post : List PyStr) (line : PyStr)
    (hsplit : pySplitChar '\n' content = pre ++ line :: post) :
    (((pyStrip line).isEmpty || pyStartswith (lit ";") (pyStrip line)) = true →
      Script.run_startup_script ex name content s0
        = ((Script.runLines ex post (Script.runLines ex pre s0).1).1,
           lit "Executing " ++ name ++ lit "...\n"
             ++ ((Script.runLines ex pre s0).2
               ++ (Script.runLines ex post (Script.runLines ex pre s0).1).2)))
  ∧ (∀ msg,
      ((pyStrip line).isEmpty || pyStartswith (lit ";") (pyStrip line)) = false →
      ex (Script.runLines ex pre s0).1 (pyStrip line) = Except.error msg →
      Script.run_startup_script ex name content s0
        = ((Script.runLines ex post (Script.runLines ex pre s0).1).1,
           lit "Executing " ++ name ++ lit "...\n"
             ++ ((Script.runLines ex pre s0).2
               ++ (Script.errText (pyStrip line) msg
                 ++ (Script.runLines ex post (Script.runLines ex pre s0).1).2)))) := by
  constructor
  · intro hskip
    have hstep : Script.runStep ex ((Script.runLines ex pre s0).1, ([] : PyStr)) line
        = ((Script.runLines ex pre s0).1, ([] : PyStr)) := by
      unfold Script.runStep
      dsimp only
      rw [if_pos hskip]
    have hlines : Script.runLines ex (line :: post) (Script.runLines ex pre s0).1
        = Script.runLines ex post (Script.runLines ex pre s0).1 := by
      show List.foldl (Script.runStep ex)
          (Script.runStep ex ((Script.runLines ex pre s0).1, []) line) post = _
      rw [hstep]
      rfl
    unfold Script.run_startup_script
    dsimp only
    rw [hsplit, runLines_append ex pre (line :: post) s0, hlines]
  · intro msg hskip herr
    have hstep : Script.runStep ex ((Script.runLines ex pre s0).1, ([] : PyStr)) line
        = ((Script.runLines ex pre s0).1, Script.errText (pyStrip line) msg) := by
      unfold Script.runStep
      dsimp only
      rw [if_neg (by simp [hskip]), herr]
      simp
    have hlines : Script.runLines ex (line :: post) (Script.runLines ex pre s0).1
        = ((Script.runLines ex post (Script.runLines ex pre s0).1).1,
           Script.errText (pyStrip line) msg
             ++ (Script.runLines ex post (Script.runLines ex pre s0).1).2) := by
      show List.foldl (Script.runStep ex)
          (Script.runStep ex ((Script.runLines ex pre s0).1, []) line) post = _
      rw [hstep, runLines_shift]
    unfold Script.run_startup_script
    dsimp only
    rw [hsplit, runLines_append ex pre (line :: post) s0, hlines]

/-- Witness for C4: a concrete script with a comment, a faulting line and
a trailing command, run against the sample execution body. -/
theorem script_runner_line_isolation_witness :
    pySplitChar '\n' (lit "; c\nboom\necho hi")
        = [lit "; c"] ++ (lit "boom") :: [lit "echo hi"]
  ∧ ((pyStrip (lit "boom")).isEmpty
        || pyStartswith (lit ";") (pyStrip (lit "boom"))) = false
  ∧ Script.exSample (Script.runLines Script.exSample [lit "; c"] 0).1
        (pyStrip (lit "boom")) = Except.error (lit "kapow")
  ∧ Script.run_startup_script Script.exSample (lit "Startup-Sequence")
        (lit "; c\nboom\necho hi") 0
      = ((Script.runLines Script.exSample [lit "echo hi"]
            (Script.runLines Script.exSample [lit "; c"] 0).1).1,
         lit "Executing Startup-Sequence...\n"
           ++ ((Script.runLines Script.exSample [lit "; c"] 0).2
             ++ (Script.errText (pyStrip (lit "boom")) (lit "kapow")
               ++ (Script.runLines Script.exSample [lit "echo hi"]
                     (Script.runLines Script.exSample [lit "; c"] 0).1).2))) :=
  ⟨by decide, by decide, rfl,
   (script_runner_line_isolation Script.exSample (lit "Startup-Sequence")
      (lit "; c\nboom\necho hi") 0 [lit "; c"] [lit "echo hi"] (lit "boom")
      (by decide)).2 (lit "kapow") (by decide) rfl⟩

end WSA
